import Mathlib

set_option maxHeartbeats 1000000

/-!
Shallow embedding of the Himplant eligibility API.

The repository is a collection of near-duplicate revisions of one HTTP
service; the definitions below follow the final revision of
`src/server.js` (the second half of that file).  Where a claim refers to
the earlier revisions, the relevant earlier code (the lead search of the
complete branch) is embedded separately under an explicit name.

JavaScript runtime builtins that are not code of this repository are
modelled explicitly: string methods (`trim`, `toLowerCase`,
`toUpperCase`, `startsWith`, `endsWith`, `split`) as executable
functions on the character data, and `Date`, `JSON.parse`,
`JSON.stringify` and the CRM itself (reached through `fetch`) as
components of the environment `Env`.  Everything else is translated
directly from the source.
-/

/-- The JavaScript `String.prototype.trim` method (whitespace at both
ends removed), on character data. -/
def trimData (l : List Char) : List Char :=
  ((l.dropWhile Char.isWhitespace).reverse.dropWhile Char.isWhitespace).reverse

/-- The JavaScript `String.prototype.trim` method. -/
def jsTrimStr (s : String) : String :=
  String.mk (trimData s.data)

/-- The JavaScript `String.prototype.toLowerCase` method. -/
def jsLower (s : String) : String :=
  String.mk (s.data.map Char.toLower)

/-- The JavaScript `String.prototype.toUpperCase` method. -/
def jsUpper (s : String) : String :=
  String.mk (s.data.map Char.toUpper)

/-- `s.startsWith(c)` for a one-character needle. -/
def headIs (s : String) (c : Char) : Bool :=
  match s.data with
  | d :: _ => d = c
  | [] => false

/-- `s.endsWith(c)` for a one-character needle. -/
def lastIs (s : String) (c : Char) : Bool :=
  match s.data.getLast? with
  | some d => d = c
  | none => false

/-- The JavaScript `String.prototype.split` method for a one-character
separator, on character data (`"".split(c)` is `[""]`). -/
def splitDataOn (c : Char) : List Char → List (List Char)
  | [] => [[]]
  | d :: rest =>
    let r := splitDataOn c rest
    if d = c then [] :: r
    else
      match r with
      | h :: t => (d :: h) :: t
      | [] => [[d]]

/-- `s.split(c)` for a one-character separator. -/
def jsSplit (s : String) (c : Char) : List String :=
  (splitDataOn c s.data).map String.mk

/-- A JavaScript value as it can appear in a submission body.  Arrays are
modelled as arrays of strings, the shape the intake form sends. -/
inductive JSVal where
  | undefV
  | null
  | bool (b : Bool)
  | str (s : String)
  | arr (xs : List String)
  deriving DecidableEq, Repr, Inhabited

/-- JavaScript truthiness of a `JSVal` (arrays are always truthy). -/
def jsTruthy : JSVal → Bool
  | .undefV => false
  | .null => false
  | .bool b => b
  | .str s => s ≠ ""
  | .arr _ => true

/-- JavaScript `String(v)` coercion. -/
def jsToString : JSVal → String
  | .undefV => "undefined"
  | .null => "null"
  | .bool true => "true"
  | .bool false => "false"
  | .str s => s
  | .arr xs => String.intercalate "," xs

/-- JavaScript `String(v || "")`, the coercion used throughout the source. -/
def jsStr (v : JSVal) : String :=
  if jsTruthy v then jsToString v else ""

/-- `a || b` on JavaScript values. -/
def jsOr (a b : JSVal) : JSVal :=
  if jsTruthy a then a else b

/-- `function digitsOnly(s)`:  `String(s || "").replace(/\D/g, "")`
(the argument is already a string at every call site of the final
revision). -/
def digitsOnly (s : String) : String :=
  String.mk (s.data.filter Char.isDigit)

/-- The `ISO_TO_DIAL` table of `src/server.js`. -/
def ISO_TO_DIAL : String → Option String
  | "US" => some "1"
  | "CA" => some "1"
  | "MX" => some "52"
  | "CO" => some "57"
  | "AE" => some "971"
  | "SA" => some "966"
  | "JO" => some "962"
  | "GB" => some "44"
  | "ES" => some "34"
  | "FR" => some "33"
  | "DE" => some "49"
  | "IT" => some "39"
  | "BR" => some "55"
  | "AR" => some "54"
  | "CL" => some "56"
  | "PE" => some "51"
  | "EC" => some "593"
  | "PA" => some "507"
  | "CR" => some "506"
  | "DO" => some "1"
  | _ => none

/-- `function normalizePhoneE164(countryCodeOrDial, phoneNumber)` of
`src/server.js`. -/
def normalizePhoneE164 (countryCodeOrDial phoneNumber : JSVal) : String :=
  let raw := jsTrimStr (jsStr phoneNumber)
  if headIs raw '+' then
    let cleaned := "+" ++ digitsOnly raw
    if cleaned.length > 1 then cleaned else ""
  else
    let pn := digitsOnly raw
    let ccRaw := jsUpper (jsTrimStr (jsStr countryCodeOrDial))
    let dial :=
      match ISO_TO_DIAL ccRaw with
      | some d => d
      | none => if digitsOnly ccRaw ≠ "" then digitsOnly ccRaw else ""
    if dial = "" ∧ pn = "" then ""
    else if dial = "" then (if pn ≠ "" then "+" ++ pn else "")
    else if pn ≠ "" then "+" ++ dial ++ pn else "+" ++ dial

/-- `function nullableText(v)` of `src/server.js`; `none` models `null`. -/
def nullableText (v : JSVal) : Option String :=
  match v with
  | .undefV => none
  | .null => none
  | v =>
    let s := jsTrimStr (jsToString v)
    if s = "" then none else some s

/-- `function boolToYesNo(v)` of `src/server.js`. -/
def boolToYesNo (v : JSVal) : Option String :=
  match v with
  | .bool true => some "Yes"
  | .bool false => some "No"
  | .str s =>
    let t := jsLower (jsTrimStr s)
    if t = "yes" then some "Yes"
    else if t = "no" then some "No"
    else if t = "true" then some "Yes"
    else if t = "false" then some "No"
    else none
  | _ => none

/-- A value in an outgoing CRM payload, after the mapping helpers ran. -/
inductive PVal where
  | undefV
  | null
  | str (s : String)
  | arr (xs : List String)
  deriving DecidableEq, Repr, Inhabited

/-- An outgoing CRM record payload, as an ordered key-value object. -/
abbrev Payload := List (String × PVal)

/-- JavaScript truthiness of a payload value. -/
def pvTruthy : PVal → Bool
  | .undefV => false
  | .null => false
  | .str s => s ≠ ""
  | .arr _ => true

/-- The keep-condition of `pruneEmpty`: drop `undefined`, `null` and
strings that trim to the empty string. -/
def keepEntry : PVal → Bool
  | .undefV => false
  | .null => false
  | .str s => jsTrimStr s ≠ ""
  | .arr _ => true

/-- `function pruneEmpty(obj)` of `src/server.js`. -/
def pruneEmpty (obj : Payload) : Payload :=
  obj.filter (fun kv => keepEntry kv.2)

/-- A `null`-able string field value (`nullableText` result is spread
into the object literal before `pruneEmpty` runs). -/
def optText : Option String → PVal
  | none => .null
  | some s => .str s

/-- A `null`-able string-array field value. -/
def optArr : Option (List String) → PVal
  | none => .null
  | some xs => .arr xs

/-- `phone || null` for a string already computed. -/
def strOrNull (s : String) : PVal :=
  if s ≠ "" then .str s else .null

/-- The submission body of `POST /api/submissions`: every field the final
revision reads, each a raw JavaScript value (absent fields are
`undefined`). -/
structure Submission where
  submission_type : JSVal := .undefV
  session_id : JSVal := .undefV
  email : JSVal := .undefV
  phone_country_code : JSVal := .undefV
  phone_number : JSVal := .undefV
  first_name : JSVal := .undefV
  last_name : JSVal := .undefV
  date_of_birth : JSVal := .undefV
  current_location_country : JSVal := .undefV
  location_country : JSVal := .undefV
  country : JSVal := .undefV
  current_location_state : JSVal := .undefV
  location_state : JSVal := .undefV
  state : JSVal := .undefV
  surgeon_id : JSVal := .undefV
  payment_method : JSVal := .undefV
  timeline : JSVal := .undefV
  circumcised : JSVal := .undefV
  tobacco_use : JSVal := .undefV
  ed_history : JSVal := .undefV
  active_std : JSVal := .undefV
  ed_maintain_with_or_without_meds : JSVal := .undefV
  std_list : JSVal := .undefV
  prior_procedure_list : JSVal := .undefV
  recent_outbreak_6mo : JSVal := .undefV
  medical_conditions_list : JSVal := .undefV
  body_type : JSVal := .undefV
  outcome : JSVal := .undefV
  submitted_at : JSVal := .undefV
  deriving DecidableEq, Repr, Inhabited

/-- `function getCurrentCountry(submission)` of `src/server.js`. -/
def getCurrentCountry (submission : Submission) : JSVal :=
  jsOr submission.current_location_country
    (jsOr submission.location_country (jsOr submission.country (.str "")))

/-- `function getCurrentState(submission)` of `src/server.js`. -/
def getCurrentState (submission : Submission) : JSVal :=
  jsOr submission.current_location_state
    (jsOr submission.location_state (jsOr submission.state (.str "")))

/-- A CRM lead record as consumed by the final revision: only the `id`
and the audit text field are read from search and get responses. -/
structure Lead where
  id : String := ""
  questionnaireDetails : String := ""
  deriving DecidableEq, Repr, Inhabited

/-- One record of a CRM write response body (`resp.data[0]`). -/
structure RecResp where
  status : String := ""
  code : Option String := none
  apiName : Option String := none
  detailsId : Option String := none
  deriving DecidableEq, Repr, Inhabited

/-- The CRM answer to a write request: a non-2xx HTTP failure carrying
the parsed error body, or a 2xx body whose first record may still say
`status: "error"`. -/
inductive ZohoResp where
  | httpErr (status : Nat) (code : Option String) (apiName : Option String)
  | okBody (first : Option RecResp)
  deriving DecidableEq, Repr, Inhabited

/-- The typed failure thrown by the CRM client helpers (`err.httpStatus`,
`err.zoho.code`, `err.zoho.details.api_name`). -/
structure ZErr where
  msg : String := ""
  httpStatus : Option Nat := none
  code : Option String := none
  apiName : Option String := none
  deriving DecidableEq, Repr, Inhabited

/-- A surgeon record as consumed by `GET /api/geo/states` (only the
`State` field is read). -/
structure SurgeonRec where
  state : String := ""
  deriving DecidableEq, Repr, Inhabited

/-- One CRM call issued by a handler, recorded for the call trace. -/
inductive CrmCall where
  | searchEmail (e : String)
  | searchPhone (p : String)
  | searchSession (s : String)
  | getLead (id : String)
  | update (id : String) (payload : Payload)
  | create (payload : Payload)
  | task
  | surgeonSearch (criteria : String)
  deriving DecidableEq, Repr

/-- The environment a request runs in: the CRM reached through `fetch`
(search, get, create, update responses), the clock, and the JSON
builtins.  Everything here is outside the repository code. -/
structure Env where
  searchEmailResp : String → Option Lead
  searchPhoneResp : String → Option Lead
  searchSessionResp : String → Option Lead
  getLeadResp : String → Option Lead
  updateResp : String → Payload → ZohoResp
  createResp : Payload → ZohoResp
  surgeonSearchResp : String → Option (List SurgeonRec)
  nowIso : String
  jsonStringifySub : Submission → String
  jsonParse : String → Option JSVal
  createTasksFlag : Bool

/-- `function toZohoJsonArray(value)` of `src/server.js`; `JSON.parse`
is the builtin modelled by `Env.jsonParse` (a failed parse or a
non-array parse falls through to the comma-split branch, as in the
source). -/
def toZohoJsonArray (env : Env) (value : JSVal) : Option (List String) :=
  match value with
  | .undefV => none
  | .null => none
  | .arr xs =>
    let clean := (xs.map (fun x => jsTrimStr x)).filter (fun x => x != "")
    if clean.isEmpty then none else some clean
  | .str s =>
    let t := jsTrimStr s
    if t = "" then none
    else
      let fromJson : Option (Option (List String)) :=
        if headIs t '[' ∧ lastIs t ']' then
          match env.jsonParse t with
          | some (.arr ys) =>
            let clean := (ys.map (fun x => jsTrimStr x)).filter (fun x => x != "")
            some (if clean.isEmpty then none else some clean)
          | _ => none
        else none
      match fromJson with
      | some r => r
      | none =>
        let parts := ((jsSplit t ',').map (fun x => jsTrimStr x)).filter (fun x => x != "")
        if parts.isEmpty then none else some parts
  | .bool b =>
    let s := jsTrimStr (jsToString (.bool b))
    if s = "" then none else some [s]

/-- `function toMultilineText(value)` of `src/server.js`. -/
def toMultilineText (value : JSVal) : Option String :=
  match value with
  | .undefV => none
  | .null => none
  | .str s =>
    let t := jsTrimStr s
    if t = "" then none else some t
  | .arr xs =>
    let lines := (xs.map (fun x => jsTrimStr x)).filter (fun x => x != "")
    if lines.isEmpty then none else some (String.intercalate "\n" lines)
  | .bool b =>
    let s := jsTrimStr (jsToString (.bool b))
    if s = "" then none else some s

/-- `nullableText(submission.submitted_at) || new Date().toISOString()`;
the clock is `Env.nowIso`. -/
def intakeDate (env : Env) (submission : Submission) : String :=
  match nullableText submission.submitted_at with
  | some s => s
  | none => env.nowIso

/-- `function mapLeadBase(submission)` of the final revision. -/
def mapLeadBase (env : Env) (submission : Submission) : Payload :=
  let phone := normalizePhoneE164 submission.phone_country_code submission.phone_number
  pruneEmpty [
    ("First_Name", optText (nullableText submission.first_name)),
    ("Last_Name", optText (nullableText submission.last_name)),
    ("Email", optText (nullableText submission.email)),
    ("Phone", strOrNull phone),
    ("Mobile", strOrNull phone),
    ("Country", optText (nullableText (getCurrentCountry submission))),
    ("State", optText (nullableText (getCurrentState submission))),
    ("Session_ID", optText (nullableText submission.session_id)),
    ("Surgeon_name_Lookup", optText (nullableText submission.surgeon_id)),
    ("Intake_Date", .str (intakeDate env submission))
  ]

/-- `function mapPartialBase(submission)` of the final revision. -/
def mapPartialBase (env : Env) (submission : Submission) : Payload :=
  let phone := normalizePhoneE164 submission.phone_country_code submission.phone_number
  pruneEmpty [
    ("First_Name", optText (nullableText submission.first_name)),
    ("Last_Name", optText (nullableText submission.last_name)),
    ("Email", optText (nullableText submission.email)),
    ("Phone", strOrNull phone),
    ("Mobile", strOrNull phone),
    ("Country", optText (nullableText (getCurrentCountry submission))),
    ("State", optText (nullableText (getCurrentState submission))),
    ("Session_ID", optText (nullableText submission.session_id)),
    ("Date_of_Birth", optText (nullableText submission.date_of_birth)),
    ("Intake_Date", .str (intakeDate env submission))
  ]

/-- `function mapCompleteBase(submission)` of the final revision. -/
def mapCompleteBase (env : Env) (submission : Submission) : Payload :=
  let phone := normalizePhoneE164 submission.phone_country_code submission.phone_number
  pruneEmpty [
    ("First_Name", optText (nullableText submission.first_name)),
    ("Last_Name", optText (nullableText submission.last_name)),
    ("Email", optText (nullableText submission.email)),
    ("Phone", strOrNull phone),
    ("Mobile", strOrNull phone),
    ("Date_of_Birth", optText (nullableText submission.date_of_birth)),
    ("Country", optText (nullableText (getCurrentCountry submission))),
    ("State", optText (nullableText (getCurrentState submission))),
    ("Session_ID", optText (nullableText submission.session_id)),
    ("Surgeon_name_Lookup", optText (nullableText submission.surgeon_id)),
    ("Payment_Method", optText (nullableText submission.payment_method)),
    ("Procedure_Timeline", optText (nullableText submission.timeline)),
    ("Circumcised", optText (boolToYesNo submission.circumcised)),
    ("Tobacco", optText (boolToYesNo submission.tobacco_use)),
    ("ED_history", optText (boolToYesNo submission.ed_history)),
    ("Active_STD", optText (boolToYesNo submission.active_std)),
    ("Can_maintain_erection",
      match submission.ed_maintain_with_or_without_meds with
      | .null => PVal.null
      | .undefV => PVal.null
      | v => optText (boolToYesNo v)),
    ("STD_list", optArr (toZohoJsonArray env submission.std_list)),
    ("Previous_Penis_Surgeries", optArr (toZohoJsonArray env submission.prior_procedure_list)),
    ("Recent_Outbreak",
      match submission.recent_outbreak_6mo with
      | .null => PVal.null
      | .undefV => PVal.null
      | v => optText (boolToYesNo v)),
    ("Medical_conditions_list", optText (toMultilineText submission.medical_conditions_list)),
    ("Body_Type", optText (nullableText submission.body_type)),
    ("Outcome", optText (nullableText submission.outcome)),
    ("Intake_Date", .str (intakeDate env submission))
  ]

/-- `async function searchLeadByEmail(email)` of the final revision: an
empty (trimmed) argument short-circuits to `null` without a CRM call. -/
def searchLeadByEmail (env : Env) (email : String) : Option Lead × List CrmCall :=
  let e := jsTrimStr email
  if e = "" then (none, [])
  else (env.searchEmailResp e, [CrmCall.searchEmail e])

/-- `async function searchLeadBySessionId(sessionId)` of the final
revision. -/
def searchLeadBySessionId (env : Env) (sessionId : String) : Option Lead × List CrmCall :=
  let s := jsTrimStr sessionId
  if s = "" then (none, [])
  else (env.searchSessionResp s, [CrmCall.searchSession s])

/-- `async function searchLeadByPhoneE164(phoneE164)` of the final
revision. -/
def searchLeadByPhoneE164 (env : Env) (phoneE164 : String) : Option Lead × List CrmCall :=
  let p := jsTrimStr phoneE164
  if p = "" then (none, [])
  else (env.searchPhoneResp p, [CrmCall.searchPhone p])

/-- `async function getLeadByIdForAppend(leadId)` of the final
revision. -/
def getLeadByIdForAppend (env : Env) (leadId : String) : Option Lead × List CrmCall :=
  (env.getLeadResp leadId, [CrmCall.getLead leadId])

/-- The `byEmail?.id` truthiness test: a found record counts as a match
only when its `id` is truthy. -/
def foundLead : Option Lead → Option Lead
  | some l => if l.id ≠ "" then some l else none
  | none => none

/-- `async function findLeadByPriority({ email, phoneE164, sessionId })`
of the final revision (`src/server.js` lines 1396-1410): email first,
then phone, then session, stopping at the first search whose record has
a truthy id; empty identifiers are skipped. -/
def findLeadByPriority (env : Env) (email phoneE164 sessionId : String) :
    (Option Lead × String) × List CrmCall :=
  let eRes := if email ≠ "" then searchLeadByEmail env email else (none, [])
  match foundLead eRes.1 with
  | some l => ((some l, "email"), eRes.2)
  | none =>
    let pRes := if phoneE164 ≠ "" then searchLeadByPhoneE164 env phoneE164 else (none, [])
    match foundLead pRes.1 with
    | some l => ((some l, "phone"), eRes.2 ++ pRes.2)
    | none =>
      let sRes := if sessionId ≠ "" then searchLeadBySessionId env sessionId else (none, [])
      match foundLead sRes.1 with
      | some l => ((some l, "session"), eRes.2 ++ pRes.2 ++ sRes.2)
      | none => ((none, "none"), eRes.2 ++ pRes.2 ++ sRes.2)

/-- The complete-branch lead search of the EARLIER revisions
(`src/server.js` lines 769-771, `src/unnamed/part_001` lines 802-804,
`src/unnamed/part_000` lines 493-497): session first, then email, then
phone; a found record (truthy object) stops the chain. -/
def findLeadCompleteRev1 (env : Env) (sessionId email phoneE164 : String) :
    Option Lead × List CrmCall :=
  let sRes := if sessionId ≠ "" then searchLeadBySessionId env sessionId else (none, [])
  match sRes.1 with
  | some l => (some l, sRes.2)
  | none =>
    let eRes := if email ≠ "" then searchLeadByEmail env email else (none, [])
    match eRes.1 with
    | some l => (some l, sRes.2 ++ eRes.2)
    | none =>
      let pRes := if phoneE164 ≠ "" then searchLeadByPhoneE164 env phoneE164 else (none, [])
      (pRes.1, sRes.2 ++ eRes.2 ++ pRes.2)

/-- `const QUESTIONNAIRE_DETAILS_MAX_CHARS = 20000` (final revision). -/
def QUESTIONNAIRE_DETAILS_MAX_CHARS : Nat := 20000

/-- `const FIELD_QUESTIONNAIRE_DETAILS = "Questionnaire_Details"`. -/
def FIELD_QUESTIONNAIRE_DETAILS : String := "Questionnaire_Details"

/-- `function safeJsonStringify(obj, maxLen)` of `src/server.js`,
applied (as in `buildEntryString`) to the submission object;
`JSON.stringify(obj, null, 2)` and its `catch` fallback are the builtin
serializer modelled by `Env.jsonStringifySub`. -/
def safeJsonStringify (env : Env) (submission : Submission) (maxLen : Nat) : String :=
  let s := env.jsonStringifySub submission
  if s.length > maxLen then String.mk (s.data.take maxLen) ++ "\n\n[TRUNCATED]" else s

/-- The `extra` context object of `buildEntryString`. -/
structure SubCtx where
  sessionId : String := ""
  email : String := ""
  phone : String := ""
  deriving DecidableEq, Repr, Inhabited

/-- `function buildEntryString(submission, type, extra)` of the final
revision; `new Date().toISOString()` is `Env.nowIso`. -/
def buildEntryString (env : Env) (submission : Submission) (type : String)
    (extra : SubCtx) : String :=
  let header :=
    "===== " ++ env.nowIso ++ " | submission_type=" ++ type
      ++ (if extra.sessionId ≠ "" then " | session_id=" ++ extra.sessionId else "")
      ++ (if extra.email ≠ "" then " | email=" ++ extra.email else "")
      ++ (if extra.phone ≠ "" then " | phone=" ++ extra.phone else "")
      ++ " =====\n"
  header ++ safeJsonStringify env submission QUESTIONNAIRE_DETAILS_MAX_CHARS ++ "\n\n"

/-- `function clampToMaxCharsKeepNewest(text, maxChars)` of
`src/server.js`: over the cap, keep the newest `maxChars` characters
behind a truncation marker. -/
def clampToMaxCharsKeepNewest (text : String) (maxChars : Nat) : String :=
  if text.length ≤ maxChars then text
  else "[TRUNCATED_OLD_ENTRIES]\n\n"
    ++ String.mk (text.data.drop (text.data.length - maxChars))

/-- `p.hasOwnProperty(k)` on a payload object. -/
def objHasKey (p : Payload) (k : String) : Bool :=
  p.any (fun kv => kv.1 == k)

/-- `p[k]` on a payload object (`undefined` when absent). -/
def objGet (p : Payload) (k : String) : PVal :=
  match p.lookup k with
  | some v => v
  | none => .undefV

/-- `delete p[k]` on a payload object. -/
def objDelete (p : Payload) (k : String) : Payload :=
  p.filter (fun kv => kv.1 != k)

/-- `{ ...p, [k]: v }` on a payload object (the keys built by the
handler are distinct, so position does not matter for lookups). -/
def objSet (p : Payload) (k : String) (v : PVal) : Payload :=
  objDelete p k ++ [(k, v)]

/-- `function stripPhoneFields(payload)` of `src/server.js`. -/
def stripPhoneFields (p : Payload) : Payload :=
  p.filter (fun kv => kv.1 != "Phone" && kv.1 != "Mobile")

/-- `function stripEmailField(payload)` of the final revision. -/
def stripEmailField (p : Payload) : Payload :=
  p.filter (fun kv => kv.1 != "Email")

/-- `function isDuplicateZohoErrorForField(zohoErr, apiName)` of the
final revision. -/
def isDuplicateZohoErrorForField (e : ZErr) (apiName : String) : Bool :=
  e.code == some "DUPLICATE_DATA" && e.apiName == some apiName

/-- `function isInvalidDataLike(zohoErr)` of the final revision. -/
def isInvalidDataLike (e : ZErr) : Bool :=
  e.code == some "INVALID_DATA" || e.code == some "MANDATORY_NOT_FOUND"

/-- `function getApiNameFromZohoErr(zohoErr)` of the final revision. -/
def getApiNameFromZohoErr (e : ZErr) : Option String :=
  e.apiName

/-- `async function appendQuestionnaireDetailsToExistingLead(...)` of
the final revision: read the current audit text (a failed read counts
as empty), append the new entry, clamp, and set the field on the
payload. -/
def appendQuestionnaireDetailsToExistingLead (env : Env) (leadId : String)
    (payload : Payload) (submission : Submission) (type : String)
    (ctx : SubCtx) : Payload × List CrmCall :=
  let newEntry := buildEntryString env submission type ctx
  let got := getLeadByIdForAppend env leadId
  let existing :=
    match got.1 with
    | some l => l.questionnaireDetails
    | none => ""
  let combined := if existing ≠ "" then existing ++ "\n" ++ newEntry else newEntry
  (objSet payload FIELD_QUESTIONNAIRE_DETAILS
     (.str (clampToMaxCharsKeepNewest combined QUESTIONNAIRE_DETAILS_MAX_CHARS)),
   got.2)

/-- `async function createLead(payload)` of the final revision: an
in-body failure (HTTP 200 with `status` other than `"success"`, or a
missing id) is thrown with `httpStatus = 400`. -/
def createLead (env : Env) (payload : Payload) : Except ZErr String :=
  match env.createResp payload with
  | .httpErr st c a =>
    .error { msg := "Zoho API error", httpStatus := some st, code := c, apiName := a }
  | .okBody first =>
    match first with
    | some r =>
      if r.status = "success" then
        match r.detailsId with
        | some i =>
          if i ≠ "" then .ok i
          else .error { msg := "createLead failed (no id returned)",
                        httpStatus := some 400, code := r.code, apiName := r.apiName }
        | none => .error { msg := "createLead failed (no id returned)",
                           httpStatus := some 400, code := r.code, apiName := r.apiName }
      else .error { msg := "createLead failed", httpStatus := some 400,
                    code := r.code, apiName := r.apiName }
    | none => .error { msg := "createLead failed", httpStatus := some 400 }

/-- `async function updateLeadOnce(leadId, payload)` of the final
revision; in-body failures are thrown with `httpStatus = 400`. -/
def updateLeadOnce (env : Env) (leadId : String) (payload : Payload) : Except ZErr Unit :=
  match env.updateResp leadId payload with
  | .httpErr st c a =>
    .error { msg := "Zoho API error", httpStatus := some st, code := c, apiName := a }
  | .okBody first =>
    match first with
    | some r =>
      if r.status = "success" then .ok ()
      else .error { msg := "updateLead failed", httpStatus := some 400,
                    code := r.code, apiName := r.apiName }
    | none => .error { msg := "updateLead failed", httpStatus := some 400 }

/-- One recovery step of `updateLeadWithRecovery`: the three `continue`
branches of the loop body.  Returns the stripped payload and the names
pushed onto `removed`, or `none` when the error is rethrown. -/
def stepRecover (e : ZErr) (working : Payload) : Option (Payload × List String) :=
  if isDuplicateZohoErrorForField e "Email" && pvTruthy (objGet working "Email") then
    some (stripEmailField working, ["Email"])
  else if (isDuplicateZohoErrorForField e "Phone"
        && (pvTruthy (objGet working "Phone") || pvTruthy (objGet working "Mobile")))
      || (isDuplicateZohoErrorForField e "Mobile"
        && (pvTruthy (objGet working "Phone") || pvTruthy (objGet working "Mobile"))) then
    some (stripPhoneFields working, ["Phone", "Mobile"])
  else if isInvalidDataLike e then
    match getApiNameFromZohoErr e with
    | some a =>
      if a ≠ "" ∧ objHasKey working a then some (objDelete working a, [a]) else none
    | none => none
  else none

/-- The `updateLead failed after retries` error (`httpStatus = 500`). -/
def afterRetriesErr : ZErr :=
  { msg := "updateLead failed after retries", httpStatus := some 500 }

/-- The loop of `async function updateLeadWithRecovery(leadId, payload)`
of the final revision, with the remaining attempt budget as fuel.
Returns the outcome (the accumulated `removed_fields` on success) and
the list of payloads sent, one per attempt. -/
def updateLeadWithRecoveryAux (env : Env) (leadId : String) :
    Nat → Payload → Except ZErr (List String) × List Payload
  | 0, _ => (.error afterRetriesErr, [])
  | fuel + 1, working =>
    match updateLeadOnce env leadId working with
    | .ok _ => (.ok [], [working])
    | .error e =>
      match stepRecover e working with
      | some pr =>
        let rest := updateLeadWithRecoveryAux env leadId fuel pr.1
        (match rest.1 with
         | .ok names => .ok (pr.2 ++ names)
         | .error e2 => .error e2,
         working :: rest.2)
      | none => (.error e, [working])

/-- `async function updateLeadWithRecovery(leadId, payload)`:
`for (let attempt = 1; attempt <= 8; attempt++)`. -/
def updateLeadWithRecovery (env : Env) (leadId : String) (payload : Payload) :
    Except ZErr (List String) × List Payload :=
  updateLeadWithRecoveryAux env leadId 8 payload

/-- The JSON body of a `POST /api/submissions` response, together with
the HTTP status it is sent with (absent JSON keys are `none`). -/
structure SubResp where
  status : Nat := 200
  success : Bool := false
  error : Option String := none
  warning : Option String := none
  matched_by : Option String := none
  removed_fields : Option (List String) := none
  created : Option Bool := none
  lead_id : Option String := none
  zoho_http : Option Nat := none
  zoho_code : Option String := none
  zoho_api_name : Option String := none
  deriving DecidableEq, Repr, Inhabited

/-- `createZohoErrorTask(...)`: one best-effort Tasks call when the
feature toggle is on (`shouldCreateErrorTasks`), none otherwise. -/
def taskCalls (env : Env) : List CrmCall :=
  if env.createTasksFlag then [CrmCall.task] else []

/-- `["lead", "partial", "complete"]`, the known submission kinds. -/
def SUBMISSION_TYPES : List String := ["lead", "partial", "complete"]

/-- The `payloadBase` ternary of the final revision handler. -/
def payloadBaseFor (env : Env) (submission : Submission) (type : String) : Payload :=
  if type = "lead" then mapLeadBase env submission
  else if type = "partial" then mapPartialBase env submission
  else mapCompleteBase env submission

/-- The `createPayload` object of the final revision handler: the base
payload with the clamped initial audit entry set on it. -/
def createPayloadFor (env : Env) (submission : Submission) (type : String)
    (ctx : SubCtx) (payloadBase : Payload) : Payload :=
  objSet payloadBase FIELD_QUESTIONNAIRE_DETAILS
    (.str (clampToMaxCharsKeepNewest (buildEntryString env submission type ctx)
      QUESTIONNAIRE_DETAILS_MAX_CHARS))

/-- The create branch of the final revision handler: build the payload
with the initial audit entry and call `createLead`. -/
def createBranch (env : Env) (submission : Submission) (type : String)
    (ctx : SubCtx) (payloadBase : Payload) (c0 : List CrmCall) :
    Except (ZErr × List CrmCall) (SubResp × List CrmCall) :=
  let createPayload := createPayloadFor env submission type ctx payloadBase
  match createLead env createPayload with
  | .ok newId =>
    .ok ({ status := 200, success := true, created := some true, lead_id := some newId },
         c0 ++ [CrmCall.create createPayload])
  | .error e => .error (e, c0 ++ [CrmCall.create createPayload])

/-- The `try` body of the final revision `POST /api/submissions` handler
after validation: find a lead by priority, then update with recovery or
create.  Errors propagate to the `catch` with the calls made so far. -/
def runUpsert (env : Env) (submission : Submission)
    (type sessionId email phoneE164 : String) :
    Except (ZErr × List CrmCall) (SubResp × List CrmCall) :=
  let found := findLeadByPriority env email phoneE164 sessionId
  let c0 := found.2
  let payloadBase := payloadBaseFor env submission type
  let ctx : SubCtx := { sessionId := sessionId, email := email, phone := phoneE164 }
  match found.1.1 with
  | some l =>
    if l.id ≠ "" then
      let ap := appendQuestionnaireDetailsToExistingLead env l.id payloadBase
        submission type ctx
      let upd := updateLeadWithRecovery env l.id ap.1
      let updCalls := upd.2.map (fun p => CrmCall.update l.id p)
      match upd.1 with
      | .ok removed =>
        let tCalls :=
          if removed.contains FIELD_QUESTIONNAIRE_DETAILS then taskCalls env else []
        .ok ({ status := 200, success := true, matched_by := some found.1.2,
               removed_fields := some removed },
             c0 ++ ap.2 ++ updCalls ++ tCalls)
      | .error e => .error (e, c0 ++ ap.2 ++ updCalls)
    else createBranch env submission type ctx payloadBase c0
  | none => createBranch env submission type ctx payloadBase c0

/-- The final revision `app.post("/api/submissions")` handler
(`src/server.js` lines 1655-1768): validation, the upsert, and the
`catch` that classifies CRM failures (4xx and in-body 400 as a soft
200 warning, everything else as 500). -/
def postSubmissions (env : Env) (submission : Submission) : SubResp × List CrmCall :=
  let type := jsLower (jsStr submission.submission_type)
  let sessionId := jsTrimStr (jsStr submission.session_id)
  let email := jsTrimStr (jsStr submission.email)
  let phoneE164 := normalizePhoneE164 submission.phone_country_code submission.phone_number
  if type ∉ SUBMISSION_TYPES then
    ({ status := 400, success := false,
       error := some "submission_type must be \x27lead\x27, \x27partial\x27, or \x27complete\x27." },
     [])
  else if sessionId = "" ∧ email = "" ∧ phoneE164 = "" then
    ({ status := 400, success := false,
       error := some "Need session_id, email, or phone." }, [])
  else
    match runUpsert env submission type sessionId email phoneE164 with
    | .ok r => r
    | .error er =>
      let e := er.1
      let calls := er.2 ++ taskCalls env
      match e.httpStatus with
      | some h =>
        if 400 ≤ h ∧ h < 500 then
          ({ status := 200, success := true,
             warning := some "zoho_rejected_payload_manual_review_needed",
             zoho_http := some h, zoho_code := e.code, zoho_api_name := e.apiName },
           calls)
        else ({ status := 500, success := false, error := some "submission failed" }, calls)
      | none => ({ status := 500, success := false, error := some "submission failed" }, calls)

/-- The JSON body of a `GET /api/geo/states` response with its HTTP
status: either a list of region names or an error message. -/
structure GeoResp where
  status : Nat := 200
  list : Option (List String) := none
  error : Option String := none
  deriving DecidableEq, Repr, Inhabited

/-- Insertion into a string list sorted in code-point order (the model
of `Array.prototype.sort` with `localeCompare`). -/
def insertSorted (s : String) : List String → List String
  | [] => [s]
  | x :: xs => if s ≤ x then s :: x :: xs else x :: insertSorted s xs

/-- Insertion sort on strings. -/
def sortStrings : List String → List String
  | [] => []
  | x :: xs => insertSorted x (sortStrings xs)

/-- The final revision `app.get("/api/geo/states")` handler
(`src/server.js` lines 1247-1267): empty country is a 400, any country
other than `"United States"` answers `[]` without a CRM call, and for
the United States the distinct non-empty `State` values of the search
result are returned sorted. -/
def getApiGeoStates (env : Env) (countryQ : JSVal) : GeoResp × List CrmCall :=
  let country := jsTrimStr (jsStr countryQ)
  if country = "" then ({ status := 400, error := some "country is required" }, [])
  else if country ≠ "United States" then ({ status := 200, list := some [] }, [])
  else
    let criteria :=
      "(Active_Status:equals:true) and (Country:equals:" ++ country ++ ")"
    match env.surgeonSearchResp criteria with
    | none =>
      ({ status := 500, error := some "states lookup failed" },
       [CrmCall.surgeonSearch criteria])
    | some recs =>
      let states :=
        ((recs.map (fun r => jsTrimStr r.state)).filter (fun s => s != "")).eraseDups
      ({ status := 200, list := some (sortStrings states) },
       [CrmCall.surgeonSearch criteria])


/-- The calls a run of the upsert body issues, success or failure. -/
def runUpsertCalls (env : Env) (submission : Submission)
    (type sessionId email phoneE164 : String) : List CrmCall :=
  match runUpsert env submission type sessionId email phoneE164 with
  | .ok r => r.2
  | .error er => er.2

/-- A small concrete environment for evaluating the handlers: empty CRM,
writes succeed, fixed clock, trivial serializer. -/
def testEnv : Env := {
  searchEmailResp := fun _ => none,
  searchPhoneResp := fun _ => none,
  searchSessionResp := fun _ => none,
  getLeadResp := fun _ => none,
  updateResp := fun _ _ => .okBody (some { status := "success" }),
  createResp := fun _ => .okBody (some { status := "success", detailsId := some "9" }),
  surgeonSearchResp := fun _ => some [],
  nowIso := "T",
  jsonStringifySub := fun _ => "x",
  jsonParse := fun _ => none,
  createTasksFlag := true }

/-- A lead matched by session key in the priority-order scenario. -/
def leadA : Lead := { id := "A" }

/-- A different lead matched by email in the priority-order scenario. -/
def leadB : Lead := { id := "B" }

/-- CRM state where session key `s1` and email `e@x` match different
leads. -/
def c1Env : Env := { testEnv with
  searchSessionResp := fun s => if s = "s1" then some leadA else none,
  searchEmailResp := fun e => if e = "e@x" then some leadB else none }

/-- A complete submission carrying both a session key and an email. -/
def c1Sub : Submission :=
  { submission_type := .str "complete", session_id := .str "s1", email := .str "e@x" }

/-- An environment whose CRM rejects every update with a duplicate-value
error on `Phone` while the payload still has phone fields, and accepts
it otherwise. -/
def c2Env : Env := { testEnv with
  searchEmailResp := fun e => if e = "a@b.c" then some leadB else none,
  updateResp := fun _ p =>
    if objHasKey p "Phone" then
      .okBody (some { status := "error", code := some "DUPLICATE_DATA",
                      apiName := some "Phone" })
    else .okBody (some { status := "success" }) }

/-- A partial submission with an email and a phone number. -/
def c2Sub : Submission :=
  { submission_type := .str "partial", email := .str "a@b.c",
    phone_country_code := .str "US", phone_number := .str "5551234" }

/-- An environment whose CRM rejects the create with an HTTP 404. -/
def c3Env : Env := { testEnv with
  createResp := fun _ => .httpErr 404 (some "INVALID_URL_PATTERN") none }

/-- An environment whose CRM rejects every update with an HTTP 503
(a non-recoverable classification for the recovery loop). -/
def c7Env : Env := { testEnv with
  updateResp := fun _ _ => .httpErr 503 none none }

/-- A serializer output of 20001 characters, one over the audit cap. -/
def c6Big : String := String.mk (List.replicate 20001 'a')

/-- An environment whose JSON serializer yields 20001 characters. -/
def c6Env : Env := { testEnv with jsonStringifySub := fun _ => c6Big }

/-- A lead submission with only a session key. -/
def c6Sub : Submission :=
  { submission_type := .str "lead", session_id := .str "s1" }

/-- A partial submission with an email only, for the classification
scenario. -/
def c3Sub : Submission :=
  { submission_type := .str "partial", email := .str "a@b.c" }

/-- A partial submission with a session key only. -/
def c8Sub : Submission :=
  { submission_type := .str "partial", session_id := .str "s1" }

/-- The audit-field value of the first create call of a trace, measured
in characters. -/
def firstCreateQDLen (calls : List CrmCall) : Option Nat :=
  match calls.findSome? (fun c =>
    match c with
    | CrmCall.create p => some p
    | _ => none) with
  | some p =>
    match p.lookup FIELD_QUESTIONNAIRE_DETAILS with
    | some (PVal.str q) => some q.length
    | _ => none
  | none => none

/-! ### Support lemmas -/

theorem mem_pruneEmpty {kv : String × PVal} {l : Payload}
    (h : kv ∈ pruneEmpty l) : keepEntry kv.2 = true :=
  (List.mem_filter.mp h).2

theorem lookup_append (l1 l2 : Payload) (k : String) :
    (l1 ++ l2).lookup k =
      match l1.lookup k with
      | some v => some v
      | none => l2.lookup k := by
  induction l1 with
  | nil => simp
  | cons a t ih =>
    rcases a with ⟨ka, va⟩
    by_cases hk : k = ka
    · subst hk
      simp [List.lookup]
    · have hb : (k == ka) = false := beq_eq_false_iff_ne.mpr hk
      simp [List.lookup, hb, ih]

theorem lookup_filter_keyPred (pred : String → Bool) (l : Payload) (k : String) :
    (l.filter (fun kv => pred kv.1)).lookup k =
      if pred k then l.lookup k else none := by
  induction l with
  | nil => simp
  | cons a t ih =>
    rcases a with ⟨ka, va⟩
    by_cases hk : k = ka
    · subst hk
      by_cases hp : pred k
      · simp [List.lookup, hp]
      · simp [List.lookup, hp, ih]
    · have hb : (k == ka) = false := beq_eq_false_iff_ne.mpr hk
      by_cases hp : pred ka
      · simp [List.lookup, hp, hb, ih]
      · simp [List.lookup, hp, hb, ih]

theorem lookup_objSet_self (p : Payload) (k : String) (v : PVal) :
    (objSet p k v).lookup k = some v := by
  unfold objSet objDelete
  rw [lookup_append]
  have : (p.filter (fun kv => kv.1 != k)).lookup k = none := by
    rw [lookup_filter_keyPred (fun x => x != k) p k]
    simp
  rw [this]
  simp [List.lookup]

theorem stepRecover_lookup {e : ZErr} {w : Payload} {pr : Payload × List String}
    (h : stepRecover e w = some pr) (k : String) (v : PVal)
    (hl : pr.1.lookup k = some v) : w.lookup k = some v := by
  unfold stepRecover at h
  split at h
  · rcases Option.some.inj h with rfl
    unfold stripEmailField at hl
    rw [lookup_filter_keyPred (fun x => x != "Email") w k] at hl
    split at hl
    · exact hl
    · cases hl
  · split at h
    · rcases Option.some.inj h with rfl
      unfold stripPhoneFields at hl
      rw [lookup_filter_keyPred (fun x => x != "Phone" && x != "Mobile") w k] at hl
      split at hl
      · exact hl
      · cases hl
    · split at h
      · split at h
        · split at h
          · rcases Option.some.inj h with rfl
            unfold objDelete at hl
            rw [lookup_filter_keyPred (fun x => x != _) w k] at hl
            split at hl
            · exact hl
            · cases hl
          · cases h
        · cases h
      · cases h

theorem recoveryAux_trace_lookup (env : Env) (leadId : String) :
    ∀ (fuel : Nat) (w p : Payload), p ∈ (updateLeadWithRecoveryAux env leadId fuel w).2 →
      ∀ (k : String) (v : PVal), p.lookup k = some v → w.lookup k = some v := by
  intro fuel
  induction fuel with
  | zero =>
    intro w p hp
    simp [updateLeadWithRecoveryAux] at hp
  | succ n ih =>
    intro w p hp k v hl
    unfold updateLeadWithRecoveryAux at hp
    split at hp
    · simp at hp
      subst hp
      exact hl
    · rename_i e he
      cases hsr : stepRecover e w with
      | none =>
        rw [hsr] at hp
        simp at hp
        subst hp
        exact hl
      | some pr =>
        rw [hsr] at hp
        simp at hp
        rcases hp with hp | hp
        · subst hp
          exact hl
        · exact stepRecover_lookup hsr k v (ih pr.1 p hp k v hl)

theorem recoveryAux_len (env : Env) (leadId : String) :
    ∀ (fuel : Nat) (w : Payload),
      (updateLeadWithRecoveryAux env leadId fuel w).2.length ≤ fuel := by
  intro fuel
  induction fuel with
  | zero =>
    intro w
    simp [updateLeadWithRecoveryAux]
  | succ n ih =>
    intro w
    unfold updateLeadWithRecoveryAux
    split
    · simp
    · rename_i e he
      cases hsr : stepRecover e w with
      | none => simp
      | some pr =>
        simp only [List.length_cons]
        exact Nat.succ_le_succ (ih pr.1)

theorem recoveryAux_dropLast (env : Env) (leadId : String) :
    ∀ (fuel : Nat) (w p : Payload),
      p ∈ (updateLeadWithRecoveryAux env leadId fuel w).2.dropLast →
      ∃ e pr, updateLeadOnce env leadId p = .error e ∧ stepRecover e p = some pr := by
  intro fuel
  induction fuel with
  | zero =>
    intro w p hp
    simp [updateLeadWithRecoveryAux] at hp
  | succ n ih =>
    intro w p hp
    unfold updateLeadWithRecoveryAux at hp
    split at hp
    · simp at hp
    · rename_i e he
      cases hsr : stepRecover e w with
      | none =>
        rw [hsr] at hp
        simp at hp
      | some pr =>
        rw [hsr] at hp
        simp only at hp
        rcases hrest : (updateLeadWithRecoveryAux env leadId n pr.1).2 with _ | ⟨q, qs⟩
        · rw [hrest] at hp
          simp at hp
        · rw [hrest] at hp
          rw [List.dropLast_cons_of_ne_nil (by simp)] at hp
          rcases List.mem_cons.mp hp with hp | hp
          · subst hp
            exact ⟨e, pr, he, hsr⟩
          · have := ih pr.1 p (by rw [hrest]; exact hp)
            exact this

theorem recoveryAux_error (env : Env) (leadId : String) :
    ∀ (fuel : Nat) (w : Payload) (e : ZErr),
      (updateLeadWithRecoveryAux env leadId fuel w).1 = .error e →
      (e = afterRetriesErr ∧ (updateLeadWithRecoveryAux env leadId fuel w).2.length = fuel) ∨
      (∃ last, (updateLeadWithRecoveryAux env leadId fuel w).2.getLast? = some last ∧
        updateLeadOnce env leadId last = .error e ∧ stepRecover e last = none) := by
  intro fuel
  induction fuel with
  | zero =>
    intro w e he
    simp [updateLeadWithRecoveryAux] at he ⊢
    exact he.symm
  | succ n ih =>
    intro w e he
    unfold updateLeadWithRecoveryAux at he ⊢
    cases hu : updateLeadOnce env leadId w with
    | ok u =>
      rw [hu] at he
      simp at he
    | error e1 =>
      rw [hu] at he
      cases hsr : stepRecover e1 w with
      | none =>
        simp only [hsr] at he ⊢
        simp at he
        subst he
        right
        exact ⟨w, by simp, hu, hsr⟩
      | some pr =>
        simp only [hsr] at he ⊢
        cases hr : (updateLeadWithRecoveryAux env leadId n pr.1).1 with
        | ok names =>
          simp only [hr] at he
          simp at he
        | error e2 =>
          simp only [hr] at he
          simp at he
          subst he
          rcases ih pr.1 e2 hr with ⟨hfe, hlen⟩ | ⟨last, hlast, hup, hstep⟩
          · left
            refine ⟨hfe, ?_⟩
            simp only [List.length_cons, hlen]
          · right
            refine ⟨last, ?_, hup, hstep⟩
            rcases hq : (updateLeadWithRecoveryAux env leadId n pr.1).2 with _ | ⟨q, qs⟩
            · rw [hq] at hlast
              simp at hlast
            · rw [hq] at hlast
              simp only [List.getLast?_cons_cons]
              rw [← hq, hq]
              exact hlast

theorem clamp_eq_of_le {text : String} {m : Nat} (h : text.length ≤ m) :
    clampToMaxCharsKeepNewest text m = text := by
  unfold clampToMaxCharsKeepNewest
  simp [h]

theorem clamp_length_of_gt {text : String} {m : Nat} (h : m < text.length) :
    (clampToMaxCharsKeepNewest text m).length = 25 + m := by
  unfold clampToMaxCharsKeepNewest
  rw [if_neg (by omega)]
  have hdata : text.data.length = text.length := rfl
  have hmarker : ("[TRUNCATED_OLD_ENTRIES]\n\n" : String).length = 25 := by decide
  rw [String.length_append]
  have hdrop : (String.mk (text.data.drop (text.data.length - m))).length
      = text.data.length - (text.data.length - m) := by
    show (text.data.drop (text.data.length - m)).length
      = text.data.length - (text.data.length - m)
    exact List.length_drop _ _
  rw [hmarker, hdrop, hdata]
  omega

theorem clamp_length_le (text : String) (m : Nat) :
    (clampToMaxCharsKeepNewest text m).length ≤ m + 25 := by
  by_cases h : text.length ≤ m
  · rw [clamp_eq_of_le h]
    omega
  · rw [clamp_length_of_gt (by omega)]
    omega

theorem clamp_keep_newest {text : String} {m : Nat} (h : m < text.length) :
    ∃ pre kept, text = pre ++ kept ∧ kept.length = m ∧
      clampToMaxCharsKeepNewest text m = "[TRUNCATED_OLD_ENTRIES]\n\n" ++ kept := by
  refine ⟨String.mk (text.data.take (text.data.length - m)),
          String.mk (text.data.drop (text.data.length - m)), ?_, ?_, ?_⟩
  · show text = String.mk (text.data.take (text.data.length - m) ++ text.data.drop (text.data.length - m))
    rw [List.take_append_drop]
  · show (text.data.drop (text.data.length - m)).length = m
    rw [List.length_drop]
    have hdata : text.data.length = text.length := rfl
    omega
  · unfold clampToMaxCharsKeepNewest
    rw [if_neg (by omega)]

theorem searchLeadByEmail_calls (env : Env) (email : String) (c : CrmCall)
    (h : c ∈ (searchLeadByEmail env email).2) : ∃ x, c = CrmCall.searchEmail x := by
  unfold searchLeadByEmail at h
  by_cases he : jsTrimStr email = ""
  · simp [he] at h
  · simp [he] at h
    exact ⟨_, h⟩

theorem searchLeadByPhoneE164_calls (env : Env) (p : String) (c : CrmCall)
    (h : c ∈ (searchLeadByPhoneE164 env p).2) : ∃ x, c = CrmCall.searchPhone x := by
  unfold searchLeadByPhoneE164 at h
  by_cases he : jsTrimStr p = ""
  · simp [he] at h
  · simp [he] at h
    exact ⟨_, h⟩

theorem searchLeadBySessionId_calls (env : Env) (s : String) (c : CrmCall)
    (h : c ∈ (searchLeadBySessionId env s).2) : ∃ x, c = CrmCall.searchSession x := by
  unfold searchLeadBySessionId at h
  by_cases he : jsTrimStr s = ""
  · simp [he] at h
  · simp [he] at h
    exact ⟨_, h⟩

/-- Every call of the priority search is one of the three lead
searches. -/
theorem findLeadByPriority_calls (env : Env) (email phoneE164 sessionId : String)
    (c : CrmCall) (h : c ∈ (findLeadByPriority env email phoneE164 sessionId).2) :
    (∃ x, c = CrmCall.searchEmail x) ∨ (∃ x, c = CrmCall.searchPhone x) ∨
    (∃ x, c = CrmCall.searchSession x) := by
  have hE : ∀ d ∈ (if email ≠ "" then searchLeadByEmail env email else (none, [])).2,
      ∃ x, d = CrmCall.searchEmail x := by
    intro d hd
    split at hd
    · exact searchLeadByEmail_calls env email d hd
    · simp at hd
  have hP : ∀ d ∈ (if phoneE164 ≠ "" then searchLeadByPhoneE164 env phoneE164 else (none, [])).2,
      ∃ x, d = CrmCall.searchPhone x := by
    intro d hd
    split at hd
    · exact searchLeadByPhoneE164_calls env phoneE164 d hd
    · simp at hd
  have hS : ∀ d ∈ (if sessionId ≠ "" then searchLeadBySessionId env sessionId else (none, [])).2,
      ∃ x, d = CrmCall.searchSession x := by
    intro d hd
    split at hd
    · exact searchLeadBySessionId_calls env sessionId d hd
    · simp at hd
  simp only [findLeadByPriority] at h
  split at h
  · exact Or.inl (hE c h)
  · split at h
    · rcases List.mem_append.mp h with h | h
      · exact Or.inl (hE c h)
      · exact Or.inr (Or.inl (hP c h))
    · split at h
      · rcases List.mem_append.mp h with h | h
        · rcases List.mem_append.mp h with h | h
          · exact Or.inl (hE c h)
          · exact Or.inr (Or.inl (hP c h))
        · exact Or.inr (Or.inr (hS c h))
      · rcases List.mem_append.mp h with h | h
        · rcases List.mem_append.mp h with h | h
          · exact Or.inl (hE c h)
          · exact Or.inr (Or.inl (hP c h))
        · exact Or.inr (Or.inr (hS c h))

theorem foundLead_some {o : Option Lead} {l : Lead}
    (h : foundLead o = some l) : l.id ≠ "" := by
  cases o with
  | none => cases h
  | some l2 =>
    simp only [foundLead] at h
    by_cases hid : l2.id = ""
    · rw [if_neg (not_not_intro hid)] at h
      cases h
    · rw [if_pos hid] at h
      cases h
      exact hid

theorem findLeadByPriority_some_id (env : Env) (e p s : String) (l : Lead)
    (h : (findLeadByPriority env e p s).1.1 = some l) : l.id ≠ "" := by
  simp only [findLeadByPriority] at h
  rcases h1 : foundLead (if e ≠ "" then searchLeadByEmail env e else (none, [])).1 with _ | l1
  · rw [h1] at h
    rcases h2 : foundLead (if p ≠ "" then searchLeadByPhoneE164 env p else (none, [])).1 with _ | l2
    · rw [h2] at h
      rcases h3 : foundLead (if s ≠ "" then searchLeadBySessionId env s else (none, [])).1 with _ | l3
      · rw [h3] at h
        cases h
      · rw [h3] at h
        cases h
        exact foundLead_some h3
    · rw [h2] at h
      cases h
      exact foundLead_some h2
  · rw [h1] at h
    cases h
    exact foundLead_some h1

theorem findLeadByPriority_all_empty (env : Env) :
    findLeadByPriority env "" "" "" = ((none, "none"), []) := rfl

theorem findLeadByPriority_empty_ids_calls (env : Env) (s : String) (c : CrmCall)
    (hc : c ∈ (findLeadByPriority env "" "" s).2) :
    ∃ x, c = CrmCall.searchSession x := by
  by_cases hs : s = ""
  · subst hs
    rw [findLeadByPriority_all_empty] at hc
    simp at hc
  · have hcalls : (findLeadByPriority env "" "" s).2 = (searchLeadBySessionId env s).2 := by
      simp only [findLeadByPriority]
      rw [if_neg (by simp : ¬("" : String) ≠ ""), if_neg (by simp : ¬("" : String) ≠ ""),
        if_pos hs]
      rcases h3 : (searchLeadBySessionId env s).1 with _ | l3
      · simp [foundLead]
      · by_cases hid : l3.id = "" <;> simp [foundLead, hid]
    rw [hcalls] at hc
    exact searchLeadBySessionId_calls env s c hc

theorem appendQD_snd (env : Env) (leadId : String) (payload : Payload)
    (sub : Submission) (type : String) (ctx : SubCtx) :
    (appendQuestionnaireDetailsToExistingLead env leadId payload sub type ctx).2
      = [CrmCall.getLead leadId] := rfl

theorem appendQD_lookup (env : Env) (leadId : String) (payload : Payload)
    (sub : Submission) (type : String) (ctx : SubCtx) :
    ∃ t, (appendQuestionnaireDetailsToExistingLead env leadId payload sub type ctx).1.lookup
        FIELD_QUESTIONNAIRE_DETAILS
      = some (PVal.str (clampToMaxCharsKeepNewest t QUESTIONNAIRE_DETAILS_MAX_CHARS)) := by
  unfold appendQuestionnaireDetailsToExistingLead
  dsimp only
  exact ⟨_, lookup_objSet_self _ _ _⟩

theorem createPayloadFor_lookup (env : Env) (sub : Submission) (type : String)
    (ctx : SubCtx) (payloadBase : Payload) :
    (createPayloadFor env sub type ctx payloadBase).lookup FIELD_QUESTIONNAIRE_DETAILS
      = some (PVal.str (clampToMaxCharsKeepNewest (buildEntryString env sub type ctx)
          QUESTIONNAIRE_DETAILS_MAX_CHARS)) :=
  lookup_objSet_self _ _ _

theorem createBranch_calls (env : Env) (sub : Submission) (type : String)
    (ctx : SubCtx) (base : Payload) (c0 : List CrmCall) (c : CrmCall)
    (hc : c ∈ (match createBranch env sub type ctx base c0 with
               | .ok r => r.2
               | .error er => er.2)) :
    c ∈ c0 ∨ c = CrmCall.create (createPayloadFor env sub type ctx base) := by
  simp only [createBranch] at hc
  cases h : createLead env (createPayloadFor env sub type ctx base) with
  | ok i =>
    rw [h] at hc
    simp at hc
    rcases hc with hc | hc
    · exact Or.inl hc
    · exact Or.inr hc
  | error e =>
    rw [h] at hc
    simp at hc
    rcases hc with hc | hc
    · exact Or.inl hc
    · exact Or.inr hc

theorem createBranch_ok_resp (env : Env) (sub : Submission) (type : String)
    (ctx : SubCtx) (base : Payload) (c0 : List CrmCall) (r : SubResp × List CrmCall)
    (h : createBranch env sub type ctx base c0 = .ok r) : r.1.error = none := by
  simp only [createBranch] at h
  cases hcr : createLead env (createPayloadFor env sub type ctx base) with
  | ok i =>
    rw [hcr] at h
    cases h
    rfl
  | error e =>
    rw [hcr] at h
    cases h

theorem createBranch_calls_ok (env : Env) (sub : Submission) (type : String)
    (ctx : SubCtx) (base : Payload) (c0 : List CrmCall) (r : SubResp × List CrmCall)
    (h : createBranch env sub type ctx base c0 = .ok r) (c : CrmCall) (hc : c ∈ r.2) :
    c ∈ c0 ∨ c = CrmCall.create (createPayloadFor env sub type ctx base) := by
  simp only [createBranch] at h
  cases hcr : createLead env (createPayloadFor env sub type ctx base) with
  | ok i =>
    rw [hcr] at h
    cases h
    simpa using List.mem_append.mp hc
  | error e =>
    rw [hcr] at h
    cases h

theorem createBranch_calls_err (env : Env) (sub : Submission) (type : String)
    (ctx : SubCtx) (base : Payload) (c0 : List CrmCall) (er : ZErr × List CrmCall)
    (h : createBranch env sub type ctx base c0 = .error er) (c : CrmCall) (hc : c ∈ er.2) :
    c ∈ c0 ∨ c = CrmCall.create (createPayloadFor env sub type ctx base) := by
  simp only [createBranch] at h
  cases hcr : createLead env (createPayloadFor env sub type ctx base) with
  | ok i =>
    rw [hcr] at h
    cases h
  | error e =>
    rw [hcr] at h
    cases h
    simpa using List.mem_append.mp hc

theorem runUpsert_call_classes (env : Env) (sub : Submission) (type s e p : String)
    (c : CrmCall) (hc : c ∈ runUpsertCalls env sub type s e p) :
    c ∈ (findLeadByPriority env e p s).2 ∨
    (∃ x, c = CrmCall.getLead x) ∨
    c = CrmCall.task ∨
    (∃ l p2, (findLeadByPriority env e p s).1.1 = some l ∧ l.id ≠ "" ∧
      c = CrmCall.update l.id p2 ∧
      p2 ∈ (updateLeadWithRecovery env l.id
        (appendQuestionnaireDetailsToExistingLead env l.id (payloadBaseFor env sub type)
          sub type { sessionId := s, email := e, phone := p }).1).2) ∨
    (c = CrmCall.create (createPayloadFor env sub type
        { sessionId := s, email := e, phone := p } (payloadBaseFor env sub type)) ∧
      ∀ l, (findLeadByPriority env e p s).1.1 = some l → l.id = "") := by
  unfold runUpsertCalls at hc
  simp only [runUpsert] at hc
  rcases hf : findLeadByPriority env e p s with ⟨⟨ol, mb⟩, c0⟩
  rw [hf] at hc
  dsimp only at hc ⊢
  cases ol with
  | none =>
    rcases createBranch_calls env sub type _ _ c0 c hc with h | h
    · exact Or.inl h
    · refine Or.inr (Or.inr (Or.inr (Or.inr ⟨h, ?_⟩)))
      intro l hl
      cases hl
  | some l =>
    split at hc
    · rename_i x r heq
      split at heq
      · rename_i l2 hid
        injection hid with hl
        subst hl
        split at heq
        · rename_i hid2
          split at heq
          · rename_i removed hup
            injection heq with hr
            subst hr
            rcases List.mem_append.mp hc with hc1 | hc1
            · rcases List.mem_append.mp hc1 with hc2 | hc2
              · rcases List.mem_append.mp hc2 with hc3 | hc3
                · exact Or.inl hc3
                · rw [appendQD_snd] at hc3
                  simp at hc3
                  exact Or.inr (Or.inl ⟨l.id, hc3⟩)
              · rcases List.mem_map.mp hc2 with ⟨p2, hp2, hcp⟩
                exact Or.inr (Or.inr (Or.inr (Or.inl ⟨l, p2, rfl, hid2, hcp.symm, hp2⟩)))
            · revert hc1
              split
              · intro hc1
                unfold taskCalls at hc1
                split at hc1
                · simp at hc1
                  exact Or.inr (Or.inr (Or.inl hc1))
                · simp at hc1
              · intro hc1
                simp at hc1
          · exact absurd heq (by simp)
        · rename_i hid2
          rcases createBranch_calls_ok env sub type _ _ c0 r heq c hc with h | h
          · exact Or.inl h
          · refine Or.inr (Or.inr (Or.inr (Or.inr ⟨h, ?_⟩)))
            intro l2 hl2
            injection hl2 with hl2
            subst hl2
            simpa using hid2
      · rename_i hid
        cases hid
    · rename_i x er heq
      split at heq
      · rename_i l2 hid
        injection hid with hl
        subst hl
        split at heq
        · rename_i hid2
          split at heq
          · exact absurd heq (by simp)
          · rename_i e2 hup
            injection heq with hr
            subst hr
            rcases List.mem_append.mp hc with hc1 | hc1
            · rcases List.mem_append.mp hc1 with hc2 | hc2
              · exact Or.inl hc2
              · rw [appendQD_snd] at hc2
                simp at hc2
                exact Or.inr (Or.inl ⟨l.id, hc2⟩)
            · rcases List.mem_map.mp hc1 with ⟨p2, hp2, hcp⟩
              exact Or.inr (Or.inr (Or.inr (Or.inl ⟨l, p2, rfl, hid2, hcp.symm, hp2⟩)))
        · rename_i hid2
          rcases createBranch_calls_err env sub type _ _ c0 er heq c hc with h | h
          · exact Or.inl h
          · refine Or.inr (Or.inr (Or.inr (Or.inr ⟨h, ?_⟩)))
            intro l2 hl2
            injection hl2 with hl2
            subst hl2
            simpa using hid2
      · rename_i hid
        cases hid

theorem postSubmissions_calls (env : Env) (sub : Submission) (c : CrmCall)
    (hc : c ∈ (postSubmissions env sub).2) :
    c ∈ runUpsertCalls env sub (jsLower (jsStr sub.submission_type))
        (jsTrimStr (jsStr sub.session_id)) (jsTrimStr (jsStr sub.email))
        (normalizePhoneE164 sub.phone_country_code sub.phone_number) ∨
    c = CrmCall.task := by
  simp only [postSubmissions] at hc
  split at hc
  · simp at hc
  · split at hc
    · simp at hc
    · unfold runUpsertCalls
      split at hc
      · rename_i r heq
        exact Or.inl hc
      · rename_i er heq
        have hcalls : c ∈ er.2 ++ taskCalls env := by
          split at hc
          · split at hc
            · exact hc
            · exact hc
          · exact hc
        rcases List.mem_append.mp hcalls with h1 | h1
        · exact Or.inl h1
        · unfold taskCalls at h1
          split at h1
          · simp at h1
            exact Or.inr h1
          · simp at h1

theorem runUpsert_ok_error_none (env : Env) (sub : Submission)
    (type s e p : String) (r : SubResp × List CrmCall)
    (h : runUpsert env sub type s e p = .ok r) : r.1.error = none := by
  simp only [runUpsert] at h
  rcases hf : findLeadByPriority env e p s with ⟨⟨ol, mb⟩, c0⟩
  rw [hf] at h
  dsimp only at h
  cases ol with
  | none => exact createBranch_ok_resp env sub type _ _ c0 r h
  | some l =>
    split at h
    · rename_i l2 hid
      injection hid with hl
      subst hl
      split at h
      · split at h
        · rename_i removed hup
          injection h with hr
          subst hr
          rfl
        · exact absurd h (by simp)
      · exact createBranch_ok_resp env sub type _ _ c0 r h
    · rename_i hid
      cases hid

theorem ISO_TO_DIAL_some_ne (x d : String) (h : ISO_TO_DIAL x = some d) : d ≠ "" := by
  unfold ISO_TO_DIAL at h
  split at h
  all_goals first
  | (cases h; decide)
  | cases h

theorem append_plus_ne_empty (d : String) : "+" ++ d ≠ "" := by
  intro h0
  have hlen := congrArg String.length h0
  rw [String.length_append] at hlen
  have h1 : ("+" : String).length = 1 := rfl
  have h2 : ("" : String).length = 0 := rfl
  rw [h1, h2] at hlen
  omega

/-! ### Claims -/

/-- C4: for every `POST /api/submissions` request with a known
`submission_type` whose body has no session key, no email, and no phone
(the derived identifiers are all empty), the handler answers 400 with
the `Need session_id, email, or phone.` validation error and issues no
CRM calls at all. -/
theorem c4_no_identifiers_rejected_without_crm_calls (env : Env) (sub : Submission)
    (htype : jsLower (jsStr sub.submission_type) ∈ SUBMISSION_TYPES)
    (hsession : jsTrimStr (jsStr sub.session_id) = "")
    (hemail : jsTrimStr (jsStr sub.email) = "")
    (hphone : normalizePhoneE164 sub.phone_country_code sub.phone_number = "") :
    postSubmissions env sub =
      ({ status := 400, success := false,
         error := some "Need session_id, email, or phone." }, []) := by
  simp only [postSubmissions]
  rw [if_neg (not_not_intro htype), if_pos ⟨hsession, hemail, hphone⟩]

/-- Witness for C4: a concrete `partial` submission with no identifiers
is rejected with 400 and an empty call trace. -/
theorem c4_no_identifiers_rejected_without_crm_calls_witness :
    postSubmissions testEnv { submission_type := JSVal.str "partial" } =
      ({ status := 400, success := false,
         error := some "Need session_id, email, or phone." }, []) :=
  c4_no_identifiers_rejected_without_crm_calls testEnv
    { submission_type := JSVal.str "partial" }
    (by decide) (by decide) (by decide) (by decide)

/-- C9: `GET /api/geo/states` with a non-empty country other than
`United States` answers 200 with the empty list and makes no CRM call,
whatever the CRM contains; and a non-empty region list is only possible
for `United States`. -/
theorem c9_states_non_us_empty (env : Env) (countryQ : JSVal) :
    (jsTrimStr (jsStr countryQ) ≠ "" → jsTrimStr (jsStr countryQ) ≠ "United States" →
      getApiGeoStates env countryQ = ({ status := 200, list := some [] }, [])) ∧
    (∀ l, (getApiGeoStates env countryQ).1.list = some l → l ≠ [] →
      jsTrimStr (jsStr countryQ) = "United States") := by
  constructor
  · intro h1 h2
    simp only [getApiGeoStates]
    rw [if_neg h1, if_pos h2]
  · intro l hl hne
    by_cases h2 : jsTrimStr (jsStr countryQ) = "United States"
    · exact h2
    · exfalso
      simp only [getApiGeoStates] at hl
      by_cases h1 : jsTrimStr (jsStr countryQ) = ""
      · rw [if_pos h1] at hl
        simp at hl
      · rw [if_neg h1, if_pos h2] at hl
        simp at hl
        exact hne hl

/-- Witness for C9: the Canada scenario evaluated concretely. -/
theorem c9_states_non_us_empty_witness :
    getApiGeoStates testEnv (JSVal.str "Canada") = ({ status := 200, list := some [] }, []) :=
  (c9_states_non_us_empty testEnv (JSVal.str "Canada")).1 (by decide) (by decide)

/-- C5: every entry of a payload produced by the field-mapping step
(`mapLeadBase`, `mapPartialBase`, `mapCompleteBase`) has a value that is
neither `undefined`, nor `null`, nor a string that trims to the empty
string: empty fields are omitted entirely. -/
theorem c5_mapped_payload_no_empty_values (env : Env) (sub : Submission)
    (kv : String × PVal)
    (h : kv ∈ mapLeadBase env sub ∨ kv ∈ mapPartialBase env sub ∨
         kv ∈ mapCompleteBase env sub) :
    kv.2 ≠ PVal.undefV ∧ kv.2 ≠ PVal.null ∧
    ∀ s, kv.2 = PVal.str s → jsTrimStr s ≠ "" := by
  have hk : keepEntry kv.2 = true := by
    rcases h with h | h | h
    · exact mem_pruneEmpty h
    · exact mem_pruneEmpty h
    · exact mem_pruneEmpty h
  refine ⟨?_, ?_, ?_⟩
  · intro hv
    rw [hv] at hk
    simp [keepEntry] at hk
  · intro hv
    rw [hv] at hk
    simp [keepEntry] at hk
  · intro s hv
    rw [hv] at hk
    simpa [keepEntry] using hk

/-- Witness for C5: the `Intake_Date` entry of an otherwise empty lead
submission. -/
theorem c5_mapped_payload_no_empty_values_witness :
    (("Intake_Date", PVal.str "T") : String × PVal).2 ≠ PVal.undefV ∧
    (("Intake_Date", PVal.str "T") : String × PVal).2 ≠ PVal.null ∧
    ∀ s, (("Intake_Date", PVal.str "T") : String × PVal).2 = PVal.str s →
      jsTrimStr s ≠ "" :=
  c5_mapped_payload_no_empty_values testEnv {} ("Intake_Date", PVal.str "T")
    (Or.inl (by decide))

/-- C10 counterexample: the claim as stated fails for a trimmed
phone_number that starts with `+` but has no digits: the country code
`US` maps to dial code `1`, the phone number `+x` has no digits, yet
`normalizePhoneE164` returns the empty string, not `+1`. -/
theorem c10_counterexample :
    digitsOnly (jsTrimStr (jsStr (JSVal.str "+x"))) = "" ∧
    ISO_TO_DIAL (jsUpper (jsTrimStr (jsStr (JSVal.str "US")))) = some "1" ∧
    normalizePhoneE164 (JSVal.str "US") (JSVal.str "+x") = "" ∧
    ("" : String) ≠ "+" ++ "1" := by decide

/-- C10 (amended): if the trimmed phone_number does NOT start with `+`
and contains no digits, while the phone_country_code resolves to a
non-empty dial code (through the `ISO_TO_DIAL` table or as digits of
its own), then `normalizePhoneE164` returns the non-empty string
`+<dial>`; consequently a request with a known submission_type carrying
only such a dial code (no session key, no email) is not rejected by the
`Need session_id, email, or phone.` validation. -/
theorem c10_amended_dial_code_phone (env : Env) (sub : Submission)
    (cc pn : JSVal) (d : String)
    (hplus : headIs (jsTrimStr (jsStr pn)) '+' = false)
    (hnod : digitsOnly (jsTrimStr (jsStr pn)) = "")
    (hdial : ISO_TO_DIAL (jsUpper (jsTrimStr (jsStr cc))) = some d ∨
      (ISO_TO_DIAL (jsUpper (jsTrimStr (jsStr cc))) = none ∧
       digitsOnly (jsUpper (jsTrimStr (jsStr cc))) = d ∧ d ≠ "")) :
    (normalizePhoneE164 cc pn = "+" ++ d ∧ normalizePhoneE164 cc pn ≠ "") ∧
    (jsLower (jsStr sub.submission_type) ∈ SUBMISSION_TYPES →
     jsTrimStr (jsStr sub.session_id) = "" → jsTrimStr (jsStr sub.email) = "" →
     sub.phone_country_code = cc → sub.phone_number = pn →
     (postSubmissions env sub).1.error ≠ some "Need session_id, email, or phone.") := by
  have hd : d ≠ "" := by
    rcases hdial with h | ⟨_, _, hdne⟩
    · exact ISO_TO_DIAL_some_ne _ _ h
    · exact hdne
  have hmain : normalizePhoneE164 cc pn = "+" ++ d := by
    simp only [normalizePhoneE164, hplus, Bool.false_eq_true, if_false, hnod]
    rcases hdial with h | ⟨h, hdd, _⟩
    · rw [h]
      rw [if_neg (fun hc => hd hc.1)]
      rw [if_neg hd]
      rw [if_neg (by simp)]
    · rw [h, hdd]
      rw [if_pos hd]
      rw [if_neg (fun hc => hd hc.1)]
      rw [if_neg hd]
      rw [if_neg (by simp)]
  refine ⟨⟨hmain, by rw [hmain]; exact append_plus_ne_empty d⟩, ?_⟩
  intro htype hs he hcc hpn
  have hphone : normalizePhoneE164 sub.phone_country_code sub.phone_number = "+" ++ d := by
    rw [hcc, hpn]
    exact hmain
  simp only [postSubmissions]
  rw [if_neg (not_not_intro htype)]
  have hne : ¬(jsTrimStr (jsStr sub.session_id) = "" ∧ jsTrimStr (jsStr sub.email) = "" ∧
      normalizePhoneE164 sub.phone_country_code sub.phone_number = "") := by
    rintro ⟨_, _, hp0⟩
    rw [hphone] at hp0
    exact append_plus_ne_empty d hp0
  rw [if_neg hne]
  cases hr : runUpsert env sub (jsLower (jsStr sub.submission_type))
      (jsTrimStr (jsStr sub.session_id)) (jsTrimStr (jsStr sub.email))
      (normalizePhoneE164 sub.phone_country_code sub.phone_number) with
  | ok r =>
    have herr := runUpsert_ok_error_none env sub _ _ _ _ r hr
    show r.1.error ≠ some "Need session_id, email, or phone."
    rw [herr]
    simp
  | error er =>
    split
    · rename_i r2 heq
      cases heq
    · rename_i er2 heq
      rcases hst : er2.1.httpStatus with _ | h
      · show (some "submission failed" : Option String)
          ≠ some "Need session_id, email, or phone."
        decide
      · split
        · rename_i x2 h2 heq2
          split
          · show (none : Option String) ≠ some "Need session_id, email, or phone."
            simp
          · show (some "submission failed" : Option String)
              ≠ some "Need session_id, email, or phone."
            decide
        · rename_i x2 heq2
          cases heq2

/-- Witness for C10 (amended): a `lead` submission whose only
identifying field is the dial code `US` is not rejected by the
identifier validation. -/
theorem c10_amended_dial_code_phone_witness :
    (postSubmissions testEnv
        ({ submission_type := JSVal.str "lead", phone_country_code := JSVal.str "US" }
          : Submission)).1.error
      ≠ some "Need session_id, email, or phone." :=
  (c10_amended_dial_code_phone testEnv
      { submission_type := JSVal.str "lead", phone_country_code := JSVal.str "US" }
      (JSVal.str "US") JSVal.undefV "1" (by decide) (by decide) (Or.inl (by decide))).2
    (by decide) (by decide) (by decide) (by decide) (by decide)

theorem ifEmail_calls (env : Env) (e : String) (c : CrmCall)
    (h : c ∈ (if e ≠ "" then searchLeadByEmail env e else (none, [])).2) :
    ∃ x, c = CrmCall.searchEmail x := by
  split at h
  · exact searchLeadByEmail_calls env e c h
  · simp at h

theorem ifPhone_calls (env : Env) (p : String) (c : CrmCall)
    (h : c ∈ (if p ≠ "" then searchLeadByPhoneE164 env p else (none, [])).2) :
    ∃ x, c = CrmCall.searchPhone x := by
  split at h
  · exact searchLeadByPhoneE164_calls env p c h
  · simp at h

/-- C1 counterexample: with a CRM state in which session key `s1`
matches lead `A` and email `e@x` matches a different lead `B`, the final
revision handler processing a complete submission carrying both matches
by EMAIL (not session) and never issues a session search, refuting the
claimed session-first priority order. -/
theorem c1_counterexample :
    c1Env.searchSessionResp "s1" = some leadA ∧ leadA.id ≠ "" ∧
    (postSubmissions c1Env c1Sub).1.matched_by = some "email" ∧
    CrmCall.searchSession "s1" ∉ (postSubmissions c1Env c1Sub).2 := by decide

/-- C1 (amended): in the final revision, `findLeadByPriority` used for
ALL submissions (including complete ones) tries email first, then
phone, then session key, stopping at the first search whose record has
a truthy id and skipping empty fields; the session-first order for
complete submissions holds only in the earlier revisions
(`findLeadCompleteRev1`). -/
theorem c1_amended_priority_order (env : Env) (email phoneE164 sessionId : String)
    (l : Lead) :
    (email ≠ "" → foundLead (searchLeadByEmail env email).1 = some l →
      findLeadByPriority env email phoneE164 sessionId
        = ((some l, "email"), (searchLeadByEmail env email).2)) ∧
    (foundLead ((if email ≠ "" then searchLeadByEmail env email else (none, [])).1) = none →
     phoneE164 ≠ "" → foundLead (searchLeadByPhoneE164 env phoneE164).1 = some l →
      (findLeadByPriority env email phoneE164 sessionId).1 = (some l, "phone") ∧
      ∀ x, CrmCall.searchSession x ∉ (findLeadByPriority env email phoneE164 sessionId).2) ∧
    (foundLead ((if email ≠ "" then searchLeadByEmail env email else (none, [])).1) = none →
     foundLead ((if phoneE164 ≠ "" then searchLeadByPhoneE164 env phoneE164
        else (none, [])).1) = none →
     sessionId ≠ "" → foundLead (searchLeadBySessionId env sessionId).1 = some l →
      (findLeadByPriority env email phoneE164 sessionId).1 = (some l, "session")) ∧
    (sessionId ≠ "" → (searchLeadBySessionId env sessionId).1 = some l →
      findLeadCompleteRev1 env sessionId email phoneE164
        = (some l, (searchLeadBySessionId env sessionId).2) ∧
      ∀ x, CrmCall.searchEmail x ∉ (findLeadCompleteRev1 env sessionId email phoneE164).2 ∧
           CrmCall.searchPhone x ∉ (findLeadCompleteRev1 env sessionId email phoneE164).2) := by
  refine ⟨?_, ?_, ?_, ?_⟩
  · intro hne hm
    simp only [findLeadByPriority]
    rw [if_pos hne, hm]
  · intro hnoE hp hm
    have hfull : findLeadByPriority env email phoneE164 sessionId
        = ((some l, "phone"),
           (if email ≠ "" then searchLeadByEmail env email else (none, [])).2
             ++ (searchLeadByPhoneE164 env phoneE164).2) := by
      simp only [findLeadByPriority]
      rw [hnoE, if_pos hp, hm]
    constructor
    · rw [hfull]
    · intro x hx
      rw [hfull] at hx
      rcases List.mem_append.mp hx with hx | hx
      · rcases ifEmail_calls env email _ hx with ⟨y, hy⟩
        cases hy
      · rcases searchLeadByPhoneE164_calls env phoneE164 _ hx with ⟨y, hy⟩
        cases hy
  · intro hnoE hnoP hs hm
    have hfull : findLeadByPriority env email phoneE164 sessionId
        = ((some l, "session"),
           (if email ≠ "" then searchLeadByEmail env email else (none, [])).2
             ++ (if phoneE164 ≠ "" then searchLeadByPhoneE164 env phoneE164
                  else (none, [])).2
             ++ (searchLeadBySessionId env sessionId).2) := by
      simp only [findLeadByPriority]
      rw [hnoE, hnoP, if_pos hs, hm]
    rw [hfull]
  · intro hs hm
    have hfull : findLeadCompleteRev1 env sessionId email phoneE164
        = (some l, (searchLeadBySessionId env sessionId).2) := by
      simp only [findLeadCompleteRev1]
      rw [if_pos hs, hm]
    refine ⟨hfull, ?_⟩
    intro x
    constructor
    · intro hx
      rw [hfull] at hx
      rcases searchLeadBySessionId_calls env sessionId _ hx with ⟨y, hy⟩
      cases hy
    · intro hx
      rw [hfull] at hx
      rcases searchLeadBySessionId_calls env sessionId _ hx with ⟨y, hy⟩
      cases hy

/-- Witness for C1 (amended): in the counterexample CRM state the email
match wins for the final revision, while the earlier-revision complete
search takes the session match. -/
theorem c1_amended_priority_order_witness :
    findLeadByPriority c1Env "e@x" "" "s1"
      = ((some leadB, "email"), (searchLeadByEmail c1Env "e@x").2) ∧
    findLeadCompleteRev1 c1Env "s1" "e@x" ""
      = (some leadA, (searchLeadBySessionId c1Env "s1").2) :=
  ⟨(c1_amended_priority_order c1Env "e@x" "" "s1" leadB).1 (by decide) (by decide),
   ((c1_amended_priority_order c1Env "e@x" "" "s1" leadA).2.2.2 (by decide) (by decide)).1⟩

/-- C7: the field-stripping recovery loop performs at most 8 attempts;
every attempt that was followed by a retry had failed with one of the
specific recoverable classifications (a `stepRecover` hit: duplicate
Email, duplicate Phone/Mobile, or invalid-data naming a present field);
and a failing run either rethrows the last, non-recoverable error
unchanged, or, after 8 recoverable failures, throws the retryable
500-class `afterRetriesErr`. -/
theorem c7_recovery_bounded (env : Env) (leadId : String) (payload : Payload) :
    (updateLeadWithRecovery env leadId payload).2.length ≤ 8 ∧
    (∀ p ∈ (updateLeadWithRecovery env leadId payload).2.dropLast,
      ∃ e pr, updateLeadOnce env leadId p = .error e ∧ stepRecover e p = some pr) ∧
    (∀ e, (updateLeadWithRecovery env leadId payload).1 = .error e →
      (e = afterRetriesErr ∧ afterRetriesErr.httpStatus = some 500 ∧
        (updateLeadWithRecovery env leadId payload).2.length = 8) ∨
      (∃ last, (updateLeadWithRecovery env leadId payload).2.getLast? = some last ∧
        updateLeadOnce env leadId last = .error e ∧ stepRecover e last = none)) := by
  refine ⟨recoveryAux_len env leadId 8 payload, ?_, ?_⟩
  · intro p hp
    exact recoveryAux_dropLast env leadId 8 payload p hp
  · intro e he
    rcases recoveryAux_error env leadId 8 payload e he with ⟨h1, h2⟩ | h
    · exact Or.inl ⟨h1, rfl, h2⟩
    · exact Or.inr h

/-- Witness for C7: against a CRM answering every update with HTTP 503
(not a recoverable classification) the loop makes one attempt and
rethrows that error. -/
theorem c7_recovery_bounded_witness :
    (updateLeadWithRecovery c7Env "L" []).2.length ≤ 8 ∧
    (updateLeadWithRecovery c7Env "L" []).1
      = .error { msg := "Zoho API error", httpStatus := some 503 } ∧
    (∃ last, (updateLeadWithRecovery c7Env "L" []).2.getLast? = some last ∧
      updateLeadOnce c7Env "L" last
        = .error { msg := "Zoho API error", httpStatus := some 503 } ∧
      stepRecover { msg := "Zoho API error", httpStatus := some 503 } last = none) := by
  have h := c7_recovery_bounded c7Env "L" []
  refine ⟨h.1, by rfl, ?_⟩
  rcases h.2.2 { msg := "Zoho API error", httpStatus := some 503 } (by rfl) with h3 | h3
  · exact absurd h3.1 (by decide)
  · exact h3

/-- C3: after validation, a CRM write failure classified client-side
(an `httpStatus` in 400..499, which includes in-body `status:"error"`
responses that `createLead` and `updateLeadOnce` mark as 400) makes the
handler answer 200 with `success:true` and the warning flag, while any
other classification (5xx, network/unknown with no status) makes it
answer 500 with `success:false`. -/
theorem c3_error_classification (env : Env) (sub : Submission) :
    (∀ e calls,
      jsLower (jsStr sub.submission_type) ∈ SUBMISSION_TYPES →
      ¬(jsTrimStr (jsStr sub.session_id) = "" ∧ jsTrimStr (jsStr sub.email) = "" ∧
        normalizePhoneE164 sub.phone_country_code sub.phone_number = "") →
      runUpsert env sub (jsLower (jsStr sub.submission_type))
        (jsTrimStr (jsStr sub.session_id)) (jsTrimStr (jsStr sub.email))
        (normalizePhoneE164 sub.phone_country_code sub.phone_number)
        = .error (e, calls) →
      ((∀ h, e.httpStatus = some h → 400 ≤ h → h < 500 →
        postSubmissions env sub
          = ({ status := 200, success := true,
               warning := some "zoho_rejected_payload_manual_review_needed",
               zoho_http := some h, zoho_code := e.code, zoho_api_name := e.apiName },
             calls ++ taskCalls env)) ∧
       ((e.httpStatus = none ∨ ∃ h, e.httpStatus = some h ∧ (h < 400 ∨ 500 ≤ h)) →
        postSubmissions env sub
          = ({ status := 500, success := false, error := some "submission failed" },
             calls ++ taskCalls env)))) ∧
    (∀ p rec, env.createResp p = ZohoResp.okBody (some rec) → rec.status ≠ "success" →
      ∃ err, createLead env p = .error err ∧ err.httpStatus = some 400) ∧
    (∀ id p rec, env.updateResp id p = ZohoResp.okBody (some rec) →
      rec.status ≠ "success" →
      ∃ err, updateLeadOnce env id p = .error err ∧ err.httpStatus = some 400) := by
  refine ⟨?_, ?_, ?_⟩
  · intro e calls htype hids hrun
    constructor
    · intro h hst h4 h5
      simp only [postSubmissions]
      rw [if_neg (not_not_intro htype), if_neg hids, hrun]
      dsimp only
      rw [hst]
      split
      · rename_i x2 h2 heq2
        injection heq2 with hh
        subst hh
        split
        · rfl
        · rename_i hb
          exact absurd ⟨h4, h5⟩ hb
      · rename_i x2 heq2
        cases heq2
    · intro hdisj
      simp only [postSubmissions]
      rw [if_neg (not_not_intro htype), if_neg hids, hrun]
      dsimp only
      rcases hdisj with hst | ⟨h, hst, hout⟩
      · rw [hst]
      · rw [hst]
        split
        · rename_i x2 h2 heq2
          injection heq2 with hh
          subst hh
          split
          · rename_i hb
            rcases hout with hout | hout
            · omega
            · omega
          · rfl
        · rename_i x2 heq2
          cases heq2
  · intro p rec hresp hst
    refine ⟨{ msg := "createLead failed", httpStatus := some 400,
              code := rec.code, apiName := rec.apiName }, ?_, rfl⟩
    unfold createLead
    rw [hresp]
    split
    · rename_i st c a heq
      cases heq
    · rename_i first heq
      injection heq with hfirst
      subst hfirst
      split
      · rename_i r2 heq2
        injection heq2 with hr2
        subst hr2
        rw [if_neg hst]
      · rename_i heq2
        cases heq2
  · intro id p rec hresp hst
    refine ⟨{ msg := "updateLead failed", httpStatus := some 400,
              code := rec.code, apiName := rec.apiName }, ?_, rfl⟩
    unfold updateLeadOnce
    rw [hresp]
    split
    · rename_i st c a heq
      cases heq
    · rename_i first heq
      injection heq with hfirst
      subst hfirst
      split
      · rename_i r2 heq2
        injection heq2 with hr2
        subst hr2
        rw [if_neg hst]
      · rename_i heq2
        cases heq2

/-- Witness for C3: a CRM rejecting the create with HTTP 404 makes the
handler answer 200 with the warning flag. -/
theorem c3_error_classification_witness :
    postSubmissions c3Env c3Sub
      = ({ status := 200, success := true,
           warning := some "zoho_rejected_payload_manual_review_needed",
           zoho_http := some 404, zoho_code := some "INVALID_URL_PATTERN",
           zoho_api_name := none },
         [CrmCall.searchEmail "a@b.c",
          CrmCall.create [("Email", PVal.str "a@b.c"), ("Intake_Date", PVal.str "T"),
            ("Questionnaire_Details",
             PVal.str "===== T | submission_type=partial | email=a@b.c =====\nx\n\n")]]
           ++ taskCalls c3Env) :=
  ((c3_error_classification c3Env c3Sub).1
      { msg := "Zoho API error", httpStatus := some 404,
        code := some "INVALID_URL_PATTERN" }
      [CrmCall.searchEmail "a@b.c",
       CrmCall.create [("Email", PVal.str "a@b.c"), ("Intake_Date", PVal.str "T"),
         ("Questionnaire_Details",
          PVal.str "===== T | submission_type=partial | email=a@b.c =====\nx\n\n")]]
      (by decide) (by decide) (by rfl)).1 404 rfl (by omega) (by omega)

/-- C8: for a valid submission whose only identifying field is the
session key, the handler issues no email search and no phone search;
when the session search matches a lead, no create is issued and every
update targets that lead; when it does not match, no update is issued
(the record is created). -/
theorem c8_session_only_no_email_phone_search (env : Env) (sub : Submission)
    (htype : jsLower (jsStr sub.submission_type) ∈ SUBMISSION_TYPES)
    (hemail : jsTrimStr (jsStr sub.email) = "")
    (hphone : normalizePhoneE164 sub.phone_country_code sub.phone_number = "")
    (hsession : jsTrimStr (jsStr sub.session_id) ≠ "") :
    (∀ x, CrmCall.searchEmail x ∉ (postSubmissions env sub).2 ∧
          CrmCall.searchPhone x ∉ (postSubmissions env sub).2) ∧
    (∀ l, (findLeadByPriority env "" "" (jsTrimStr (jsStr sub.session_id))).1.1 = some l →
      (∀ p, CrmCall.create p ∉ (postSubmissions env sub).2) ∧
      (∀ id p, CrmCall.update id p ∈ (postSubmissions env sub).2 → id = l.id)) ∧
    ((findLeadByPriority env "" "" (jsTrimStr (jsStr sub.session_id))).1.1 = none →
      ∀ id p, CrmCall.update id p ∉ (postSubmissions env sub).2) := by
  refine ⟨?_, ?_, ?_⟩
  · intro x
    constructor
    · intro hx
      rcases postSubmissions_calls env sub _ hx with hc | hc
      · rw [hemail, hphone] at hc
        rcases runUpsert_call_classes env sub _ _ _ _ _ hc with
          h1 | ⟨y, hy⟩ | h3 | ⟨l, p2, _, _, hceq, _⟩ | ⟨hceq, _⟩
        · rcases findLeadByPriority_empty_ids_calls env _ _ h1 with ⟨y, hy⟩
          cases hy
        · cases hy
        · cases h3
        · cases hceq
        · cases hceq
      · cases hc
    · intro hx
      rcases postSubmissions_calls env sub _ hx with hc | hc
      · rw [hemail, hphone] at hc
        rcases runUpsert_call_classes env sub _ _ _ _ _ hc with
          h1 | ⟨y, hy⟩ | h3 | ⟨l, p2, _, _, hceq, _⟩ | ⟨hceq, _⟩
        · rcases findLeadByPriority_empty_ids_calls env _ _ h1 with ⟨y, hy⟩
          cases hy
        · cases hy
        · cases h3
        · cases hceq
        · cases hceq
      · cases hc
  · intro l hfl
    constructor
    · intro p hp
      rcases postSubmissions_calls env sub _ hp with hc | hc
      · rw [hemail, hphone] at hc
        rcases runUpsert_call_classes env sub _ _ _ _ _ hc with
          h1 | ⟨y, hy⟩ | h3 | ⟨l2, p2, _, _, hceq, _⟩ | ⟨hceq, hall⟩
        · rcases findLeadByPriority_empty_ids_calls env _ _ h1 with ⟨y, hy⟩
          cases hy
        · cases hy
        · cases h3
        · cases hceq
        · exact findLeadByPriority_some_id env "" ""
            (jsTrimStr (jsStr sub.session_id)) l hfl (hall l hfl)
      · cases hc
    · intro id p hp
      rcases postSubmissions_calls env sub _ hp with hc | hc
      · rw [hemail, hphone] at hc
        rcases runUpsert_call_classes env sub _ _ _ _ _ hc with
          h1 | ⟨y, hy⟩ | h3 | ⟨l2, p2, hfl2, hid2, hceq, _⟩ | ⟨hceq, _⟩
        · rcases findLeadByPriority_empty_ids_calls env _ _ h1 with ⟨y, hy⟩
          cases hy
        · cases hy
        · cases h3
        · rw [hfl] at hfl2
          injection hfl2 with hl2
          subst hl2
          cases hceq
          rfl
        · cases hceq
      · cases hc
  · intro hfl id p hp
    rcases postSubmissions_calls env sub _ hp with hc | hc
    · rw [hemail, hphone] at hc
      rcases runUpsert_call_classes env sub _ _ _ _ _ hc with
        h1 | ⟨y, hy⟩ | h3 | ⟨l2, p2, hfl2, _, hceq, _⟩ | ⟨hceq, _⟩
      · rcases findLeadByPriority_empty_ids_calls env _ _ h1 with ⟨y, hy⟩
        cases hy
      · cases hy
      · cases h3
      · rw [hfl] at hfl2
        cases hfl2
      · cases hceq
    · cases hc

/-- Witness for C8: with a session-only submission against a CRM where
the session key matches, the handler neither searches by email or
phone nor creates a record. -/
theorem c8_session_only_no_email_phone_search_witness :
    CrmCall.searchEmail "a" ∉ (postSubmissions c1Env c8Sub).2 ∧
    CrmCall.searchPhone "b" ∉ (postSubmissions c1Env c8Sub).2 ∧
    CrmCall.create [] ∉ (postSubmissions c1Env c8Sub).2 := by
  have h := c8_session_only_no_email_phone_search c1Env c8Sub
    (by decide) (by decide) (by decide) (by decide)
  exact ⟨(h.1 "a").1, (h.1 "b").2, (h.2.1 leadA (by decide)).1 []⟩

theorem recoveryAux_two_steps (env : Env) (leadId : String) (fuel : Nat)
    (w : Payload) (e : ZErr) (pr : Payload × List String)
    (h1 : updateLeadOnce env leadId w = .error e)
    (hs : stepRecover e w = some pr)
    (h2 : updateLeadOnce env leadId pr.1 = .ok ()) :
    updateLeadWithRecoveryAux env leadId (fuel + 1 + 1) w = (.ok pr.2, [w, pr.1]) := by
  simp [updateLeadWithRecoveryAux, h1, hs, h2]

/-- C2: when the CRM rejects an update of an existing lead with a
duplicate-value error on `Phone` while the payload still carries phone
fields, and accepts the payload with `Phone`/`Mobile` stripped, the
recovery loop performs exactly one retry — two update calls, the second
without phone fields — and the handler responds success with
`removed_fields = ["Phone", "Mobile"]`. -/
theorem c2_duplicate_phone_single_retry (env : Env) (sub : Submission) (l : Lead)
    (mb : String) (e : ZErr)
    (htype : jsLower (jsStr sub.submission_type) ∈ SUBMISSION_TYPES)
    (hfind : (findLeadByPriority env (jsTrimStr (jsStr sub.email))
        (normalizePhoneE164 sub.phone_country_code sub.phone_number)
        (jsTrimStr (jsStr sub.session_id))).1 = (some l, mb))
    (pw : Payload)
    (hpw : pw = (appendQuestionnaireDetailsToExistingLead env l.id
        (payloadBaseFor env sub (jsLower (jsStr sub.submission_type))) sub
        (jsLower (jsStr sub.submission_type))
        { sessionId := jsTrimStr (jsStr sub.session_id),
          email := jsTrimStr (jsStr sub.email),
          phone := normalizePhoneE164 sub.phone_country_code sub.phone_number }).1)
    (hup1 : updateLeadOnce env l.id pw = .error e)
    (hcode : e.code = some "DUPLICATE_DATA")
    (hapi : e.apiName = some "Phone")
    (hph : (pvTruthy (objGet pw "Phone") || pvTruthy (objGet pw "Mobile")) = true)
    (hup2 : updateLeadOnce env l.id (stripPhoneFields pw) = .ok ()) :
    updateLeadWithRecovery env l.id pw
      = (.ok ["Phone", "Mobile"], [pw, stripPhoneFields pw]) ∧
    postSubmissions env sub
      = ({ status := 200, success := true, matched_by := some mb,
           removed_fields := some ["Phone", "Mobile"] },
         (findLeadByPriority env (jsTrimStr (jsStr sub.email))
            (normalizePhoneE164 sub.phone_country_code sub.phone_number)
            (jsTrimStr (jsStr sub.session_id))).2
           ++ [CrmCall.getLead l.id]
           ++ [CrmCall.update l.id pw, CrmCall.update l.id (stripPhoneFields pw)]
           ++ []) := by
  have hdupE : isDuplicateZohoErrorForField e "Email" = false := by
    unfold isDuplicateZohoErrorForField
    rw [hcode, hapi]
    decide
  have hdupP : isDuplicateZohoErrorForField e "Phone" = true := by
    unfold isDuplicateZohoErrorForField
    rw [hcode, hapi]
    decide
  have hstep : stepRecover e pw = some (stripPhoneFields pw, ["Phone", "Mobile"]) := by
    simp [stepRecover, hdupE, hdupP, hph]
  have hrec : updateLeadWithRecovery env l.id pw
      = (.ok ["Phone", "Mobile"], [pw, stripPhoneFields pw]) := by
    show updateLeadWithRecoveryAux env l.id (6 + 1 + 1) pw = _
    rw [recoveryAux_two_steps env l.id 6 pw e (stripPhoneFields pw, ["Phone", "Mobile"])
      hup1 hstep hup2]
  refine ⟨hrec, ?_⟩
  rcases hsplit : findLeadByPriority env (jsTrimStr (jsStr sub.email))
      (normalizePhoneE164 sub.phone_country_code sub.phone_number)
      (jsTrimStr (jsStr sub.session_id)) with ⟨fp, c0⟩
  rw [hsplit] at hfind
  dsimp only at hfind
  subst hfind
  have hlid : l.id ≠ "" :=
    findLeadByPriority_some_id env (jsTrimStr (jsStr sub.email))
      (normalizePhoneE164 sub.phone_country_code sub.phone_number)
      (jsTrimStr (jsStr sub.session_id)) l (by rw [hsplit])
  have hne : ¬(jsTrimStr (jsStr sub.session_id) = "" ∧ jsTrimStr (jsStr sub.email) = "" ∧
      normalizePhoneE164 sub.phone_country_code sub.phone_number = "") := by
    rintro ⟨h1, h2, h3⟩
    rw [h1, h2, h3] at hsplit
    rw [findLeadByPriority_all_empty] at hsplit
    injection hsplit with hfp hc
    injection hfp with hsome hmb
    cases hsome
  have hrun : runUpsert env sub (jsLower (jsStr sub.submission_type))
      (jsTrimStr (jsStr sub.session_id)) (jsTrimStr (jsStr sub.email))
      (normalizePhoneE164 sub.phone_country_code sub.phone_number)
      = .ok ({ status := 200, success := true, matched_by := some mb,
               removed_fields := some ["Phone", "Mobile"] },
             c0 ++ [CrmCall.getLead l.id]
               ++ [CrmCall.update l.id pw, CrmCall.update l.id (stripPhoneFields pw)]
               ++ []) := by
    simp only [runUpsert]
    rw [hsplit]
    dsimp only
    split
    · rw [← hpw, hrec]
      rfl
    · rename_i heq
      exact absurd hlid heq
  simp only [postSubmissions]
  rw [if_neg (not_not_intro htype), if_neg hne, hrun]

theorem c2_duplicate_phone_single_retry_witness :
    (postSubmissions c2Env c2Sub).1.removed_fields = some ["Phone", "Mobile"] ∧
    (postSubmissions c2Env c2Sub).1.success = true := by
  have h := (c2_duplicate_phone_single_retry c2Env c2Sub leadB "email"
    { msg := "updateLead failed", httpStatus := some 400,
      code := some "DUPLICATE_DATA", apiName := some "Phone" }
    (by decide) (by decide) _ rfl (by rfl) rfl rfl (by decide) (by rfl)).2
  rw [h]
  exact ⟨rfl, rfl⟩

/-- C6 fails as stated: with a serializer output one character over the
cap, the audit value written by the first create call has 20025
characters, exceeding the configured cap of 20000 — the clamp prepends
a 25-character truncation marker on top of the cap. -/
theorem c6_counterexample :
    firstCreateQDLen (postSubmissions c6Env c6Sub).2 = some 20025 ∧
    QUESTIONNAIRE_DETAILS_MAX_CHARS < 20025 := by
  have hbig : c6Big.length = 20001 := by
    show (List.replicate 20001 'a').length = 20001
    rw [List.length_replicate]
  have h1 : firstCreateQDLen (postSubmissions c6Env c6Sub).2
      = some ((clampToMaxCharsKeepNewest
          (buildEntryString c6Env c6Sub "lead"
            { sessionId := "s1", email := "", phone := "" })
          QUESTIONNAIRE_DETAILS_MAX_CHARS).length) := rfl
  have hcond : c6Big.length > QUESTIONNAIRE_DETAILS_MAX_CHARS := by
    rw [hbig]
    decide
  have hj : c6Env.jsonStringifySub c6Sub = c6Big := rfl
  have hsjson : safeJsonStringify c6Env c6Sub QUESTIONNAIRE_DETAILS_MAX_CHARS
      = String.mk (c6Big.data.take QUESTIONNAIRE_DETAILS_MAX_CHARS) ++ "\n\n[TRUNCATED]" := by
    simp only [safeJsonStringify, hj]
    rw [if_pos hcond]
  have htake : (String.mk (c6Big.data.take QUESTIONNAIRE_DETAILS_MAX_CHARS)).length = 20000 := by
    show (c6Big.data.take QUESTIONNAIRE_DETAILS_MAX_CHARS).length = 20000
    rw [List.length_take]
    have hd : c6Big.data.length = 20001 := hbig
    rw [hd]
    decide
  have hslen : (safeJsonStringify c6Env c6Sub QUESTIONNAIRE_DETAILS_MAX_CHARS).length
      = 20013 := by
    rw [hsjson, String.length_append, htake]
    decide
  have hnl : ("\n\n" : String).length = 2 := rfl
  have hmax : QUESTIONNAIRE_DETAILS_MAX_CHARS = 20000 := rfl
  have hentry : QUESTIONNAIRE_DETAILS_MAX_CHARS <
      (buildEntryString c6Env c6Sub "lead"
        { sessionId := "s1", email := "", phone := "" }).length := by
    simp only [buildEntryString]
    rw [String.length_append, String.length_append, hslen, hnl, hmax]
    omega
  have hlen := clamp_length_of_gt hentry
  constructor
  · rw [h1, hlen]
    rfl
  · decide

/-- C6 (amended): the audit value carried by any create or update the
submission handler issues never exceeds the cap PLUS the 25-character
truncation marker; and whenever a text over the cap is clamped, the
oldest content is truncated and exactly the newest maxChars characters
are kept behind the marker. -/
theorem c6_amended_audit_cap (env : Env) (sub : Submission) :
    (∀ p q, (CrmCall.create p ∈ (postSubmissions env sub).2 ∨
        (∃ i, CrmCall.update i p ∈ (postSubmissions env sub).2)) →
      p.lookup FIELD_QUESTIONNAIRE_DETAILS = some (PVal.str q) →
      q.length ≤ QUESTIONNAIRE_DETAILS_MAX_CHARS + 25) ∧
    (∀ text m, m < String.length text →
      ∃ pre kept, text = pre ++ kept ∧ kept.length = m ∧
        clampToMaxCharsKeepNewest text m = "[TRUNCATED_OLD_ENTRIES]\n\n" ++ kept) := by
  constructor
  · intro p q hp hq
    rcases hp with hp | ⟨i, hp⟩
    · rcases postSubmissions_calls env sub _ hp with hc | hc
      · rcases runUpsert_call_classes env sub _ _ _ _ _ hc with
          h1 | ⟨x, hx⟩ | h3 | ⟨l, p2, hfl, hlid, hceq, hmem2⟩ | ⟨hceq, hall⟩
        · rcases findLeadByPriority_calls env _ _ _ _ h1 with ⟨x, hx⟩ | ⟨x, hx⟩ | ⟨x, hx⟩
            <;> cases hx
        · cases hx
        · cases h3
        · cases hceq
        · injection hceq with hp2
          subst hp2
          rw [createPayloadFor_lookup] at hq
          injection hq with hq2
          injection hq2 with hq3
          rw [← hq3]
          exact clamp_length_le _ _
      · cases hc
    · rcases postSubmissions_calls env sub _ hp with hc | hc
      · rcases runUpsert_call_classes env sub _ _ _ _ _ hc with
          h1 | ⟨x, hx⟩ | h3 | ⟨l, p2, hfl, hlid, hceq, hmem2⟩ | ⟨hceq, hall⟩
        · rcases findLeadByPriority_calls env _ _ _ _ h1 with ⟨x, hx⟩ | ⟨x, hx⟩ | ⟨x, hx⟩
            <;> cases hx
        · cases hx
        · cases h3
        · injection hceq with hi hp2
          subst hp2
          rcases appendQD_lookup env l.id
              (payloadBaseFor env sub (jsLower (jsStr sub.submission_type))) sub
              (jsLower (jsStr sub.submission_type))
              { sessionId := jsTrimStr (jsStr sub.session_id),
                email := jsTrimStr (jsStr sub.email),
                phone := normalizePhoneE164 sub.phone_country_code sub.phone_number }
            with ⟨t, ht⟩
          have hap := recoveryAux_trace_lookup env l.id 8 _ _ hmem2
            FIELD_QUESTIONNAIRE_DETAILS (PVal.str q) hq
          rw [ht] at hap
          injection hap with hap2
          injection hap2 with hap3
          rw [← hap3]
          exact clamp_length_le _ _
        · cases hceq
      · cases hc
  · intro text m h
    exact clamp_keep_newest h

theorem c6_amended_audit_cap_witness :
    ((createPayloadFor testEnv c6Sub "lead" { sessionId := "s1", email := "", phone := "" }
        (payloadBaseFor testEnv c6Sub "lead")).lookup FIELD_QUESTIONNAIRE_DETAILS
      = some (PVal.str "===== T | submission_type=lead | session_id=s1 =====\nx\n\n")) ∧
    ("===== T | submission_type=lead | session_id=s1 =====\nx\n\n").length
      ≤ QUESTIONNAIRE_DETAILS_MAX_CHARS + 25 ∧
    (∃ pre kept, "abc" = pre ++ kept ∧ kept.length = 1 ∧
      clampToMaxCharsKeepNewest "abc" 1 = "[TRUNCATED_OLD_ENTRIES]\n\n" ++ kept) := by
  refine ⟨by decide, ?_, ?_⟩
  · exact (c6_amended_audit_cap testEnv c6Sub).1
      (createPayloadFor testEnv c6Sub "lead" { sessionId := "s1", email := "", phone := "" }
        (payloadBaseFor testEnv c6Sub "lead"))
      "===== T | submission_type=lead | session_id=s1 =====\nx\n\n"
      (Or.inl (by decide)) (by decide)
  · exact (c6_amended_audit_cap testEnv c6Sub).2 "abc" 1 (by decide)
